/-
Verification of the kaori-protocol truth compiler against its specification.

This file shallowly embeds the relevant Python modules of the repository
(packages/kaori-truth and packages/kaori-flow) as Lean definitions and proves
or refutes the frozen claims about them.

Modelling conventions, used throughout:

* Python floats are modelled as exact rationals (ℚ) where the code performs
  decimal-style arithmetic, and as real numbers (ℝ) where the code applies
  transcendental functions (math.exp, math.log, math.log2).  The claims
  settled here do not hinge on IEEE-754 rounding error; counterexamples use
  exactly representable values.
* A SHA-256 digest of a canonical serialization is modelled by the canonical
  content itself: canonical JSON over sorted keys is injective on the values
  that are serialized, so digest equality/difference corresponds to content
  equality/difference, faithfully up to SHA-256 collisions.
* UTC datetimes are modelled as integer microseconds since the epoch.  All
  datetimes handled by the claims below are timezone-aware in the source, so
  the aware/naive distinction does not arise.
* Python dicts are modelled either as structures with `Option` fields (a key
  the code reads with `.get`) or as insertion-ordered association lists (a
  dict built up by the code), matching CPython's insertion-order semantics.
-/
import Mathlib

deriving instance DecidableEq for Except

namespace Kaori

/-! # Canonical float (kaori_truth/canonical/float.py)

`canonical_float` converts a numeric value to its canonical decimal string:
quantize to 10⁻⁶ with `decimal.ROUND_HALF_UP` (ties away from zero), strip
trailing zeros after the decimal point, normalize `-0` to `"0"`.  The numeric
value is modelled as an exact rational. -/

/-- `decimal.ROUND_HALF_UP` rounding of a rational to an integer: round to the
nearest integer, ties away from zero. -/
def roundHalfUp (x : ℚ) : ℤ :=
  if 0 ≤ x then ⌊x + 1/2⌋ else -⌊-x + 1/2⌋

/-- Strip trailing `'0'` characters from a character list. -/
def stripTrailingZeros (cs : List Char) : List Char :=
  (cs.reverse.dropWhile (· = '0')).reverse

/-- Left-pad a character list with `'0'` up to length `n`. -/
def padZeros (n : ℕ) (cs : List Char) : List Char :=
  List.replicate (n - cs.length) '0' ++ cs

/-- `canonical_float(value, precision=6)` from kaori_truth/canonical/float.py,
on an exact (finite) rational value: quantize to 10⁻⁶ half-up, render the
quantized decimal, strip trailing zeros after the point, `-0 → "0"`. -/
def canonicalFloat (q : ℚ) : String :=
  let n : ℤ := roundHalfUp (q * 1000000)
  if n = 0 then "0"
  else
    let m : ℕ := n.natAbs
    let intPart : ℕ := m / 1000000
    let fracPart : ℕ := m % 1000000
    let fracStr : List Char := stripTrailingZeros (padZeros 6 (Nat.repr fracPart).data)
    let body : String :=
      if fracStr.isEmpty then Nat.repr intPart
      else Nat.repr intPart ++ "." ++ String.mk fracStr
    if n < 0 then "-" ++ body else body

example : canonicalFloat (3/2) = "1.5" := by
  have h : roundHalfUp (3/2 * 1000000) = 1500000 := by norm_num [roundHalfUp]
  simp only [canonicalFloat, h]; decide
example : canonicalFloat 1 = "1" := by
  have h : roundHalfUp (1 * 1000000) = 1000000 := by norm_num [roundHalfUp]
  simp only [canonicalFloat, h]; decide
example : canonicalFloat (1/10000000) = "0" := by
  have h : roundHalfUp (1/10000000 * 1000000) = 0 := by norm_num [roundHalfUp]
  simp only [canonicalFloat, h]; decide
example : canonicalFloat (-(1/2)) = "-0.5" := by
  have h : roundHalfUp (-(1/2) * 1000000) = -500000 := by norm_num [roundHalfUp]
  simp only [canonicalFloat, h]; decide
example : canonicalFloat (1234567/1000000) = "1.234567" := by
  have h : roundHalfUp (1234567/1000000 * 1000000) = 1234567 := by norm_num [roundHalfUp]
  simp only [canonicalFloat, h]; decide

/-! # Canonical JSON (kaori_truth/canonical/json.py)

`canonical_json` serializes through `CanonicalJSONEncoder`, a subclass of
`json.JSONEncoder` constructed with `sort_keys=True`, `separators=(',',':')`,
`ensure_ascii=False` — and `allow_nan` left at its default `True`.

Crucially, `json.JSONEncoder` serializes `float` values NATIVELY (via its
internal `floatstr`): the subclass's `default` hook is consulted only for
types the base encoder cannot handle (datetime, UUID, `Decimal`, …), never
for `float`.  A CPython float is modelled as `PyFloat`: non-finite values as
dedicated constructors, and a finite value as its exact rational value `q`
paired with its `repr` string (the shortest decimal string denoting `q` that
round-trips through the double). -/

/-- A CPython `float` value, as seen by the JSON encoder. -/
inductive PyFloat where
  | nan : PyFloat
  | inf : PyFloat
  | ninf : PyFloat
  | finite (q : ℚ) (rep : String) : PyFloat
deriving DecidableEq

/-- A Python value passed to `canonical_json`, restricted to the JSON-native
types (the `default` hook for datetime/UUID/Decimal is not needed by the
claims below). -/
inductive PyVal where
  | null : PyVal
  | bool (b : Bool) : PyVal
  | int (i : ℤ) : PyVal
  | float (f : PyFloat) : PyVal
  | str (s : String) : PyVal
  | arr (xs : List PyVal) : PyVal
  | obj (kvs : List (String × PyVal)) : PyVal

/-- `json.encoder.floatstr`: the base encoder's native float serialization.
With `allow_nan=True` (the default, not overridden by
`CanonicalJSONEncoder`), non-finite floats serialize to the non-standard
tokens `NaN` / `Infinity` / `-Infinity`; finite floats serialize to their
`repr`. -/
def floatstr (allowNan : Bool) : PyFloat → Except String String
  | .nan => if allowNan then .ok "NaN" else .error "Out of range float values are not JSON compliant"
  | .inf => if allowNan then .ok "Infinity" else .error "Out of range float values are not JSON compliant"
  | .ninf => if allowNan then .ok "-Infinity" else .error "Out of range float values are not JSON compliant"
  | .finite _ rep => .ok rep

/-- JSON string literal encoding (`ensure_ascii=False`).  The claims below
only serialize strings without quotes, backslashes or control characters, on
which the encoding is quotation. -/
def encStr (s : String) : String := "\"" ++ s ++ "\""

/-- Python's `<` on strings: lexicographic comparison of Unicode code
points. -/
def charListLt : List Char → List Char → Bool
  | [], [] => false
  | [], _ :: _ => true
  | _ :: _, [] => false
  | a :: as, b :: bs =>
    if a.toNat < b.toNat then true
    else if b.toNat < a.toNat then false
    else charListLt as bs

def strLt (a b : String) : Bool := charListLt a.data b.data

/-- One step of a stable insertion sort with strict comparison `lt`: `x` is
placed before the first element not strictly below it, so elements comparing
equal keep their original relative order — the stability guarantee of
CPython's `sorted`. -/
def insertSorted (lt : α → α → Bool) (x : α) : List α → List α
  | [] => [x]
  | y :: ys => if lt y x then y :: insertSorted lt x ys else x :: y :: ys

/-- Stable sort (modelling CPython's stable `sorted`). -/
def sortBy (lt : α → α → Bool) : List α → List α
  | [] => []
  | x :: xs => insertSorted lt x (sortBy lt xs)

/-- Sorting encoded object entries by key, modelling `sort_keys=True`
(CPython sorts the keys, then serializes each entry; entry serialization is
order-independent, so sorting the serialized entries by key is
equivalent). -/
def sortByKey : List (String × String) → List (String × String) :=
  sortBy (fun p q => strLt p.1 q.1)

/-- Join pre-rendered items with the minimal `,` separator. -/
def joinComma : List String → String
  | [] => ""
  | [s] => s
  | s :: rest => s ++ "," ++ joinComma rest

mutual
/-- `json.JSONEncoder.encode` restricted to JSON-native values, with
`sort_keys=True` and separators `(',',':')`.  Floats go through `floatstr`;
the `default` hook never sees them. -/
def encVal (allowNan : Bool) : PyVal → Except String String
  | .null => .ok "null"
  | .bool b => .ok (if b then "true" else "false")
  | .int i => .ok (toString i)
  | .float f => floatstr allowNan f
  | .str s => .ok (encStr s)
  | .arr xs => do
      let parts ← encList allowNan xs
      return "[" ++ joinComma parts ++ "]"
  | .obj kvs => do
      let parts ← encObj allowNan kvs
      let sorted := sortByKey parts
      return "\x7b" ++ joinComma (sorted.map fun p => encStr p.1 ++ ":" ++ p.2) ++ "\x7d"

def encList (allowNan : Bool) : List PyVal → Except String (List String)
  | [] => .ok []
  | v :: vs => do
      let s ← encVal allowNan v
      let rest ← encList allowNan vs
      return s :: rest

def encObj (allowNan : Bool) : List (String × PyVal) → Except String (List (String × String))
  | [] => .ok []
  | (k, v) :: kvs => do
      let s ← encVal allowNan v
      let rest ← encObj allowNan kvs
      return (k, s) :: rest
end

/-- `canonical_json(obj)` from kaori_truth/canonical/json.py: the
`CanonicalJSONEncoder` is constructed with `sort_keys=True`,
`separators=(',',':')`, `ensure_ascii=False`, and `allow_nan` left at the
`json.JSONEncoder` default `True`. -/
def canonicalJson (v : PyVal) : Except String String :=
  encVal true v

example : canonicalJson (.obj [("z", .int 1), ("a", .int 2)]) = .ok "\x7b\"a\":2,\"z\":1\x7d" := by
  simp only [canonicalJson, encVal, encObj, bind, Except.bind, Except.pure, pure]
  decide
example : canonicalJson (.arr [.int 1, .str "x"]) = .ok "[1,\"x\"]" := by
  simp only [canonicalJson, encVal, encList, bind, Except.bind, Except.pure, pure]
  decide

/-! # TruthKey (kaori_truth/primitives/truthkey.py)

`canonical_truthkey` lowercases the first five segments and joins the six
segments with `:`; `parse_truthkey` splits on `:` with `maxsplit=5` and
lowercases the first five parts. -/

structure TruthKeyParts where
  domain : String
  topic : String
  spatial_system : String
  spatial_id : String
  z_index : String
  time_bucket : String
deriving DecidableEq

/-- Python `str.lower` on a character, restricted to ASCII (code points 65–90
map to 97–122; the well-formed TruthKey segments of the claims are ASCII). -/
def lowerChar (c : Char) : Char :=
  if 65 ≤ c.toNat ∧ c.toNat ≤ 90 then Char.ofNat (c.toNat + 32) else c

def lowerStr (s : String) : String := String.mk (s.data.map lowerChar)

/-- `canonical_truthkey(parts)`: lowercase the five identifier segments, keep
`time_bucket` verbatim, join with `:`. -/
def canonicalTruthkey (p : TruthKeyParts) : String :=
  lowerStr p.domain ++ ":" ++ lowerStr p.topic ++ ":" ++ lowerStr p.spatial_system ++ ":" ++
    lowerStr p.spatial_id ++ ":" ++ lowerStr p.z_index ++ ":" ++ p.time_bucket

def consHead (c : Char) : List (List Char) → List (List Char)
  | [] => [[c]]
  | s :: ss => (c :: s) :: ss

/-- Python `str.split(':', maxsplit=m)`: split on `:` at most `m` times, the
remainder (colons included) becomes the final part. -/
def pySplitColon : List Char → ℕ → List (List Char)
  | [], _ => [[]]
  | c :: rest, m =>
    if m = 0 then [c :: rest]
    else if c = ':' then [] :: pySplitColon rest (m - 1)
    else consHead c (pySplitColon rest m)

/-- `parse_truthkey(key)`: split on `:` with `maxsplit=5`; require exactly 6
parts; lowercase the first five; `time_bucket` is taken verbatim. -/
def parseTruthkey (key : String) : Except String TruthKeyParts :=
  match pySplitColon key.data 5 with
  | [d, t, ss, si, z, tb] =>
      .ok ⟨lowerStr (String.mk d), lowerStr (String.mk t), lowerStr (String.mk ss),
           lowerStr (String.mk si), lowerStr (String.mk z), String.mk tb⟩
  | _ => .error "Invalid TruthKey format: expected 6 segments"

/-- The canonical TruthKey segment charset `[a-z0-9._-]` of
`SEGMENT_PATTERN`, by ASCII code point (`a`–`z`, `0`–`9`, `.`, `_`, `-`). -/
def segmentChar (c : Char) : Bool :=
  (97 ≤ c.toNat && c.toNat ≤ 122) || (48 ≤ c.toNat && c.toNat ≤ 57) ||
    c.toNat == 46 || c.toNat == 95 || c.toNat == 45

/-- A segment matching `SEGMENT_PATTERN = ^[a-z0-9._-]+$`. -/
def validSegment (s : String) : Bool :=
  !s.data.isEmpty && s.data.all segmentChar

/-- Minute-precision canonical time bucket `YYYY-MM-DDTHH:MMZ`. -/
def validMinuteBucket (s : String) : Bool :=
  match s.data with
  | [y1, y2, y3, y4, '-', m1, m2, '-', d1, d2, 'T', h1, h2, ':', n1, n2, 'Z'] =>
      [y1, y2, y3, y4, m1, m2, d1, d2, h1, h2, n1, n2].all fun c =>
        48 ≤ c.toNat && c.toNat ≤ 57
  | _ => false

theorem lowerChar_of_segmentChar {c : Char} (h : segmentChar c = true) : lowerChar c = c := by
  simp only [segmentChar, Bool.or_eq_true, Bool.and_eq_true, decide_eq_true_eq,
    beq_iff_eq] at h
  simp only [lowerChar, ite_eq_right_iff]
  intro hc
  omega

theorem segmentChar_ne_colon {c : Char} (h : segmentChar c = true) : c ≠ ':' := by
  simp only [segmentChar, Bool.or_eq_true, Bool.and_eq_true, decide_eq_true_eq,
    beq_iff_eq] at h
  intro hc
  subst hc
  rw [show (':' : Char).toNat = 58 from rfl] at h
  omega

theorem pySplitColon_append {seg rest : List Char} (m : ℕ)
    (h : ∀ c ∈ seg, c ≠ ':') :
    pySplitColon (seg ++ ':' :: rest) (m + 1) = seg :: pySplitColon rest m := by
  induction seg with
  | nil => simp [pySplitColon]
  | cons c cs ih =>
      have hc : c ≠ ':' := h c (by simp)
      have ih' := ih (fun x hx => h x (by simp [hx]))
      simp only [List.cons_append, pySplitColon, if_neg (by omega : ¬ m + 1 = 0), if_neg hc,
        List.append_eq, ih', consHead]

theorem pySplitColon_zero (cs : List Char) : pySplitColon cs 0 = [cs] := by
  cases cs <;> simp [pySplitColon]

theorem lowerStr_of_validSegment {s : String} (h : validSegment s = true) :
    lowerStr s = s := by
  simp only [validSegment, Bool.and_eq_true, List.all_eq_true, Bool.not_eq_true'] at h
  cases s with
  | mk data =>
      show String.mk (data.map lowerChar) = String.mk data
      have hmap : data.map lowerChar = data.map id :=
        List.map_congr_left fun c hc => lowerChar_of_segmentChar (h.2 c hc)
      rw [hmap, List.map_id]

theorem validSegment_no_colon {s : String} (h : validSegment s = true) :
    ∀ c ∈ s.data, c ≠ ':' := by
  simp only [validSegment, Bool.and_eq_true, List.all_eq_true, Bool.not_eq_true'] at h
  exact fun c hc => segmentChar_ne_colon (h.2 c hc)

/-- C8: for every well-formed TruthKey — six segments, the five identifier
segments lowercase and in the charset `[a-z0-9._-]`, and a minute-precision
time bucket — parsing the canonical string form yields the key back:
`parse_truthkey(canonical_truthkey(k)) = k`. -/
theorem C8_truthkey_roundtrip (p : TruthKeyParts)
    (hd : validSegment p.domain = true) (ht : validSegment p.topic = true)
    (hs : validSegment p.spatial_system = true) (hi : validSegment p.spatial_id = true)
    (hz : validSegment p.z_index = true) (hb : validMinuteBucket p.time_bucket = true) :
    parseTruthkey (canonicalTruthkey p) = .ok p := by
  obtain ⟨d, t, ss, si, z, tb⟩ := p
  dsimp only at hd ht hs hi hz hb
  simp only [canonicalTruthkey]
  rw [lowerStr_of_validSegment hd, lowerStr_of_validSegment ht, lowerStr_of_validSegment hs,
    lowerStr_of_validSegment hi, lowerStr_of_validSegment hz]
  have hdata : (d ++ ":" ++ t ++ ":" ++ ss ++ ":" ++ si ++ ":" ++ z ++ ":" ++ tb).data =
      d.data ++ ':' :: (t.data ++ ':' :: (ss.data ++ ':' :: (si.data ++ ':' ::
        (z.data ++ ':' :: tb.data)))) := by
    show (d.data ++ [':'] ++ t.data ++ [':'] ++ ss.data ++ [':'] ++ si.data ++ [':'] ++
        z.data ++ [':'] ++ tb.data) = _
    simp
  simp only [parseTruthkey, hdata]
  rw [pySplitColon_append 4 (validSegment_no_colon hd),
    pySplitColon_append 3 (validSegment_no_colon ht),
    pySplitColon_append 2 (validSegment_no_colon hs),
    pySplitColon_append 1 (validSegment_no_colon hi),
    pySplitColon_append 0 (validSegment_no_colon hz), pySplitColon_zero]
  show Except.ok (TruthKeyParts.mk (lowerStr d) (lowerStr t) (lowerStr ss) (lowerStr si)
    (lowerStr z) tb) = Except.ok (TruthKeyParts.mk d t ss si z tb)
  rw [lowerStr_of_validSegment hd, lowerStr_of_validSegment ht, lowerStr_of_validSegment hs,
    lowerStr_of_validSegment hi, lowerStr_of_validSegment hz]

/-- Witness for C8 at a concrete well-formed key. -/
theorem C8_truthkey_roundtrip_witness :
    validSegment "earth" = true ∧ validMinuteBucket "2026-01-07T12:00Z" = true ∧
    parseTruthkey (canonicalTruthkey
      ⟨"earth", "flood", "h3", "886142a8e7fffff", "surface", "2026-01-07T12:00Z"⟩) =
      .ok ⟨"earth", "flood", "h3", "886142a8e7fffff", "surface", "2026-01-07T12:00Z"⟩ :=
  ⟨by decide, by decide,
   C8_truthkey_roundtrip _ (by decide) (by decide) (by decide) (by decide) (by decide)
     (by decide)⟩

/-- C5: the claim states `canonical_json` rejects NaN/infinite floats and
renders finite floats in the canonical 10⁻⁶ decimal form.  The code does
neither: `json.JSONEncoder` serializes `float` natively (the `default` hook
is never consulted for floats) with `allow_nan` left `True`, so NaN
serializes to the non-standard token `NaN` (top-level or nested) instead of
raising, and a finite float serializes as its Python `repr` (here `1e-07`)
rather than the canonical quantized decimal form (`canonical_float` would
give `"0"`). -/
theorem C5_canonical_json_float_bug :
    canonicalJson (.float .nan) = .ok "NaN" ∧
    canonicalJson (.obj [("x", .float .nan)]) = .ok "\x7b\"x\":NaN\x7d" ∧
    canonicalJson (.float (.finite (1/10000000) "1e-07")) = .ok "1e-07" ∧
    canonicalFloat (1/10000000) = "0" ∧
    ("1e-07" : String) ≠ "0" := by
  refine ⟨?_, ?_, ?_, ?_, by decide⟩
  · simp [canonicalJson, encVal, floatstr]
  · simp only [canonicalJson, encVal, encObj, floatstr, bind, Except.bind, Except.pure, pure]
    decide
  · simp [canonicalJson, encVal, floatstr]
  · have h : roundHalfUp (1/10000000 * 1000000) = 0 := by norm_num [roundHalfUp]
    simp only [canonicalFloat, h]
    decide

/-! # Truth-side data model (packages/kaori-truth)

UTC datetimes are integer microseconds since the epoch.  SHA-256 digests of
canonical JSON are modelled by the canonical content they commit to (the
encoding is injective, so digest equality is content equality up to SHA-256
collisions); the empty placeholder string `""` is modelled by `none`. -/

/-- A UTC datetime: microseconds since the epoch (tz-aware in the source). -/
abbrev Micros := ℤ

/-- `canonical_datetime(dt)` (second precision, the default): strftime
`%Y-%m-%dT%H:%M:%SZ` truncates the microsecond component and is injective on
whole seconds, so the canonical string is modelled by the truncated seconds
value it encodes. -/
def canonicalDatetimeSec (t : Micros) : ℤ := t.fdiv 1000000

/-- Python `round(x, n)`: round-half-even at `n` decimal places (modelled
exactly on rationals; no claim below depends on the tie direction). -/
def roundHalfEven (x : ℚ) : ℤ :=
  let f := ⌊x⌋
  if x - f < 1/2 then f
  else if (1 : ℚ)/2 < x - f then f + 1
  else if f % 2 = 0 then f else f + 1

def pyRound (n : ℕ) (x : ℚ) : ℚ := (roundHalfEven (x * 10 ^ n) : ℚ) / 10 ^ n

/-- Python ASCII uppercase (for `str.upper()` on ASCII config strings). -/
def upperChar (c : Char) : Char :=
  if 97 ≤ c.toNat ∧ c.toNat ≤ 122 then Char.ofNat (c.toNat - 32) else c

def upperStr (s : String) : String := String.mk (s.data.map upperChar)

/-- First-match lookup in an insertion-ordered association list (CPython
`dict.get`; dict keys are unique, so first-match agrees with the dict). -/
def lookupA (l : List (String × α)) (k : String) : Option α :=
  (l.find? (fun p => p.1 == k)).map (·.2)

/-! ## TrustSnapshot (kaori_truth/trust_snapshot.py) -/

/-- `AgentTrust`: frozen per-agent trust data inside a snapshot. -/
structure AgentTrust where
  agent_id : String
  effective_power : ℚ
  standing : ℚ
  derived_class : String
  flags : List String
deriving DecidableEq

/-- `AgentTrust.canonical()`: rounded values, lowercase class, sorted flags. -/
structure AgentTrustCanon where
  agent_id : String
  effective_power : ℚ
  standing : ℚ
  derived_class : String
  flags : List String
deriving DecidableEq

def canonicalAgentTrust (a : AgentTrust) : AgentTrustCanon :=
  { agent_id := a.agent_id
    effective_power := pyRound 6 a.effective_power
    standing := pyRound 6 a.standing
    derived_class := lowerStr a.derived_class
    flags := sortBy strLt a.flags }

/-- The canonical content committed to by `TrustSnapshot.compute_hash`. -/
abbrev SnapHashContent := List (String × AgentTrustCanon)

structure TrustSnapshot where
  snapshot_id : String
  snapshot_time : Micros
  agent_trusts : List (String × AgentTrust)
  snapshot_hash : Option SnapHashContent
deriving DecidableEq

/-- `TrustSnapshot.canonical_trusts` + `compute_hash`: canonical agent
trusts, keyed and sorted by agent id. -/
def computeSnapshotHash (trusts : List (String × AgentTrust)) : SnapHashContent :=
  (sortBy (fun p q => strLt p.1 q.1) trusts).map fun p => (p.1, canonicalAgentTrust p.2)

/-- `TrustSnapshot.verify_hash`. -/
def verifyHashB (s : TrustSnapshot) : Bool :=
  s.snapshot_hash == some (computeSnapshotHash s.agent_trusts)

/-- `TrustSnapshot.create`: build a snapshot with its computed hash. -/
def mkSnapshot (id : String) (time : Micros) (trusts : List (String × AgentTrust)) :
    TrustSnapshot :=
  { snapshot_id := id, snapshot_time := time, agent_trusts := trusts
    snapshot_hash := some (computeSnapshotHash trusts) }

/-- `TrustSnapshot.get_power`: effective power of an agent, `0.0` when the
agent is absent from the snapshot. -/
def getPower (s : TrustSnapshot) (agentId : String) : ℚ :=
  match lookupA s.agent_trusts agentId with
  | some t => t.effective_power
  | none => 0

/-! ## ClaimType (kaori_truth/primitives/claimtype.py) -/

structure TruthKeyConfig where
  spatial_system : String := "h3"
  resolution : ℤ := 8
  z_index : String := "surface"
  time_bucket : String := "PT1H"
  id_strategy : String := "content_hash"
deriving DecidableEq

structure ConsensusModelCfg where
  type : String := "weighted_threshold"
  finalize_threshold : ℤ := 15
  reject_threshold : ℤ := -10
deriving DecidableEq

structure AutovalidationConfig where
  ai_verified_true_threshold : ℚ := 82/100
  ai_verified_false_threshold : ℚ := 20/100
deriving DecidableEq

structure TemporalDecayConfig where
  half_life : String := "PT6H"
  max_validity : String := "P3D"
deriving DecidableEq

/-- `ClaimType`.  The claims below are settled for claim types using the
default permissive output schema `{"type":"object"}` (no `output_schema` /
`output_schema_ref` in the YAML), under which `validate_claim_payload`
accepts any dict payload and returns its canonicalized form. -/
structure ClaimType where
  id : String
  version : ℤ
  domain : String
  topic : String
  risk_profile : String := "monitor"
  truthkey : TruthKeyConfig := {}
  consensus_model : ConsensusModelCfg := {}
  autovalidation : AutovalidationConfig := {}
  temporal_decay : TemporalDecayConfig := {}
deriving DecidableEq

/-- The canonical contract content committed to by `ClaimType.hash()`
(`id_strategy` is included only for `meta` claim types). -/
structure ClaimTypeCanon where
  id : String
  version : ℤ
  domain : String
  topic : String
  risk_profile : String
  tk_spatial_system : String
  tk_resolution : ℤ
  tk_z_index : String
  tk_time_bucket : String
  tk_id_strategy : Option String
  cm_type : String
  cm_finalize_threshold : ℤ
  cm_reject_threshold : ℤ
  av_true_threshold : ℚ
  av_false_threshold : ℚ
  td_half_life : String
  td_max_validity : String
deriving DecidableEq

/-- `ClaimType.canonical()` / `.hash()`. -/
def claimTypeCanon (ct : ClaimType) : ClaimTypeCanon :=
  { id := lowerStr ct.id
    version := ct.version
    domain := lowerStr ct.domain
    topic := lowerStr ct.topic
    risk_profile := lowerStr ct.risk_profile
    tk_spatial_system := lowerStr ct.truthkey.spatial_system
    tk_resolution := ct.truthkey.resolution
    tk_z_index := lowerStr ct.truthkey.z_index
    tk_time_bucket := upperStr ct.truthkey.time_bucket
    tk_id_strategy :=
      if lowerStr ct.truthkey.spatial_system = "meta" then
        some (lowerStr ct.truthkey.id_strategy)
      else none
    cm_type := ct.consensus_model.type
    cm_finalize_threshold := ct.consensus_model.finalize_threshold
    cm_reject_threshold := ct.consensus_model.reject_threshold
    av_true_threshold := ct.autovalidation.ai_verified_true_threshold
    av_false_threshold := ct.autovalidation.ai_verified_false_threshold
    td_half_life := upperStr ct.temporal_decay.half_life
    td_max_validity := upperStr ct.temporal_decay.max_validity }

/-! ## Observation (kaori_truth/primitives/observation.py), restricted to the
fields read by `compile_truth_state` and claim derivation. -/

/-- `payload["water_level"]`: absent, present but not `float()`-parseable
(the derivation catches and skips it), or an exact numeric value. -/
inductive WaterField where
  | absent : WaterField
  | invalid : WaterField
  | value (q : ℚ) : WaterField
deriving DecidableEq

/-- Observation payload, restricted to the keys the earth/ocean derivation
reads (`severity`, `water_level`).  The `valid` key of meta claims and the
free-form keys of space claims are not needed by any claim below. -/
structure Payload where
  severity : Option String := none
  water_level : WaterField := .absent
deriving DecidableEq

structure Observation where
  observation_id : String
  reporter_id : String
  payload : Payload := {}
  evidence_refs : List String := []
deriving DecidableEq

/-! ## Claim derivation (kaori_truth/claim_derivation.py) -/

/-- The derived claim payload as a record; a key absent from the dict is
`none` (the dict-with-sorted-keys encoding of the payload is injective on
this shape). -/
structure ClaimPayload where
  severity : Option String := none
  water_level_meters : Option ℚ := none
  observation_count : ℕ
  network_trust : ℚ
deriving DecidableEq

/-- `payload.get("severity", "unknown")`. -/
def severityOf (p : Payload) : String := p.severity.getD "unknown"

/-- One step of building the insertion-ordered `severity_weights` dict:
`severity_weights[severity] = severity_weights.get(severity, 0) + power`. -/
def addSevWeight : List (String × ℚ) → String → ℚ → List (String × ℚ)
  | [], s, w => [(s, w)]
  | (k, v) :: rest, s, w =>
      if k = s then (k, v + w) :: rest else (k, v) :: addSevWeight rest s w

/-- The `severity_weights` dict, in key insertion order. -/
def severityWeights (snap : TrustSnapshot) (obs : List Observation) : List (String × ℚ) :=
  obs.foldl (fun acc o => addSevWeight acc (severityOf o.payload) (getPower snap o.reporter_id)) []

/-- CPython `max(iterable, key=f)`: scans left to right, replacing the
current maximum only on strictly greater key — on ties the FIRST maximal
element wins. -/
def pyMaxSnd : (String × ℚ) → List (String × ℚ) → (String × ℚ)
  | best, [] => best
  | best, p :: rest => pyMaxSnd (if best.2 < p.2 then p else best) rest

/-- Weighted water-level numerator `sum(level·power)` over observations whose
`water_level` parses as a float. -/
def waterNum (snap : TrustSnapshot) (obs : List Observation) : ℚ :=
  (obs.map fun o =>
    match o.payload.water_level with
    | .value q => q * getPower snap o.reporter_id
    | _ => 0).sum

/-- Water-level denominator `water_power`: sum of powers of observations
whose `water_level` parses. -/
def waterDen (snap : TrustSnapshot) (obs : List Observation) : ℚ :=
  (obs.map fun o =>
    match o.payload.water_level with
    | .value _ => getPower snap o.reporter_id
    | _ => 0).sum

/-- Whether any observation contributed to `water_levels` (the list-nonempty
half of the `if water_levels and water_power > 0` guard). -/
def hasWater (obs : List Observation) : Bool :=
  obs.any fun o => match o.payload.water_level with | .value _ => true | _ => false

/-- Total reporter power (both the aggregate's `network_trust` and the
derivation's `total_power`). -/
def networkTrust (snap : TrustSnapshot) (obs : List Observation) : ℚ :=
  (obs.map fun o => getPower snap o.reporter_id).sum

/-- `_derive_earth_claim` (also `_derive_ocean_claim`, which delegates to
it): weighted mode of severity (ties: first key reaching the maximum in
insertion order), weighted mean of water level rounded to 2 decimals,
observation count, rounded network trust. -/
def deriveEarthClaim (snap : TrustSnapshot) (obs : List Observation) : ClaimPayload :=
  let sw := severityWeights snap obs
  let severity := match sw with
    | [] => "unknown"
    | p :: rest => (pyMaxSnd p rest).1
  { severity := some severity
    water_level_meters :=
      if hasWater obs && decide (0 < waterDen snap obs) then
        some (pyRound 2 (waterNum snap obs / waterDen snap obs))
      else none
    observation_count := obs.length
    network_trust := pyRound 2 (networkTrust snap obs) }

/-- `_derive_generic_claim` (unknown domains): count and rounded trust. -/
def deriveGenericClaim (snap : TrustSnapshot) (obs : List Observation) : ClaimPayload :=
  { observation_count := obs.length
    network_trust := pyRound 2 (networkTrust snap obs) }

/-- `derive_claim_payload`: reject empty observations, dispatch on domain.
The `space`/`meta` branches aggregate free-form payload keys not in the
modelled payload shape; no claim below instantiates those domains, so they
fall to the generic aggregate here and no theorem relies on them. -/
def deriveClaimPayload (snap : TrustSnapshot) (ct : ClaimType) (obs : List Observation) :
    Except String ClaimPayload :=
  if obs = [] then .error "Cannot derive claim from empty observations"
  else if lowerStr ct.domain = "earth" ∨ lowerStr ct.domain = "ocean" then
    .ok (deriveEarthClaim snap obs)
  else .ok (deriveGenericClaim snap obs)

/-! ## Consensus (kaori_truth/consensus.py) -/

/-- A vote dict as read by `compute_consensus` (`voter_standing` defaults to
10.0 and `vote_type` to `"RATIFY"` via `.get`; the votes used below carry
both keys). -/
structure Vote where
  voter_id : String
  voter_standing : ℝ
  vote_type : String

structure ConsensusRecord where
  votes : List Vote
  score : ℤ
  finalized : Bool
  finalize_reason : Option String
  positive_ratio : ℝ

/-- Python `int()` on a float: truncation toward zero. -/
noncomputable def intTrunc (x : ℝ) : ℤ := if 0 ≤ x then ⌊x⌋ else -⌊-x⌋

/-- Vote weight `1.0 + math.log2(1 + standing / 10.0)`. -/
noncomputable def voteWeight (standing : ℝ) : ℝ := 1 + Real.logb 2 (1 + standing / 10)

/-- The vote loop of `compute_consensus`, with the early `OVERRIDE` return;
the `finalize_reason` strings are modelled by their tags (their embedded
`:.1f`-formatted score is presentation the claims do not touch). -/
noncomputable def computeConsensusLoop (allVotes : List Vote) (fin rej : ℤ) :
    List Vote → ℝ → ℕ → ℕ → ConsensusRecord
  | [], score, rc, jc =>
      let total := rc + jc
      let ratio : ℝ := if 0 < total then (((rc : ℝ) - (jc : ℝ)) / (total : ℝ) + 1) / 2 else 1/2
      if score ≥ (fin : ℝ) then
        ⟨allVotes, intTrunc score, true, some "THRESHOLD_REACHED", ratio⟩
      else if score ≤ (rej : ℝ) then
        ⟨allVotes, intTrunc score, true, some "REJECT_THRESHOLD", ratio⟩
      else ⟨allVotes, intTrunc score, false, none, ratio⟩
  | v :: rest, score, rc, jc =>
      if v.vote_type = "RATIFY" then
        computeConsensusLoop allVotes fin rej rest (score + voteWeight v.voter_standing) (rc + 1) jc
      else if v.vote_type = "REJECT" then
        computeConsensusLoop allVotes fin rej rest (score - voteWeight v.voter_standing) rc (jc + 1)
      else if v.vote_type = "OVERRIDE" then
        if v.voter_standing ≥ 500 then
          ⟨allVotes, intTrunc score, true, some ("AUTHORITY_OVERRIDE by " ++ v.voter_id), 1⟩
        else computeConsensusLoop allVotes fin rej rest score rc jc
      else computeConsensusLoop allVotes fin rej rest score rc jc

/-- `compute_consensus(votes, claim_config)` with the claim config's
consensus-model thresholds. -/
noncomputable def computeConsensus (votes : List Vote) (fin rej : ℤ) : ConsensusRecord :=
  computeConsensusLoop votes fin rej votes 0 0 0

/-! ## Aggregate, status, confidence (kaori_truth/compiler.py) -/

structure Aggregate where
  observation_count : ℕ
  network_trust : ℚ
  ai_confidence_mean : ℚ
  ai_variance : ℚ
deriving DecidableEq

/-- `_compute_observation_aggregate`: sum of reporter powers; AI mean (and
sample variance when more than one score) rounded to 6 decimals; a missing
or empty `ai_scores` (`if not ai_scores`) is replaced by one `0.5` per
observation. -/
def computeObservationAggregate (obs : List Observation) (snap : TrustSnapshot)
    (aiScores : Option (List ℚ)) : Aggregate :=
  if obs = [] then ⟨0, 0, 0, 0⟩
  else
    let scores := match aiScores with
      | none => List.replicate obs.length (1/2)
      | some [] => List.replicate obs.length (1/2)
      | some l => l
    let mean := scores.sum / (scores.length : ℚ)
    let var : ℚ :=
      if 1 < scores.length then
        ((scores.map fun x => (x - mean) ^ 2).sum) / ((scores.length : ℚ) - 1)
      else 0
    ⟨obs.length, networkTrust snap obs, pyRound 6 mean, pyRound 6 var⟩

inductive TruthStatus where
  | PENDING | LEANING_TRUE | LEANING_FALSE | UNDECIDED | PENDING_HUMAN_REVIEW
  | INVESTIGATING | VERIFIED_TRUE | VERIFIED_FALSE | INCONCLUSIVE | EXPIRED
deriving DecidableEq

inductive VerificationBasis where
  | AI_AUTOVALIDATION | HUMAN_CONSENSUS | AUTHORITY_OVERRIDE | IMPLICIT_CONSENSUS
  | TIMEOUT_DEFAULT | TIMEOUT_INCONCLUSIVE
deriving DecidableEq

/-- `_determine_status`: the `votes` parameter is accepted and never read, as
in the source.  High AI variance forces `UNDECIDED` with a contradiction
flag; the monitor lane auto-verifies on the AI thresholds; the critical lane
always yields `PENDING_HUMAN_REVIEW`. -/
def determineStatus (agg : Aggregate) (ct : ClaimType) (_votes : List Vote) :
    TruthStatus × Option VerificationBasis × List String :=
  let tt := ct.autovalidation.ai_verified_true_threshold
  let ft := ct.autovalidation.ai_verified_false_threshold
  if agg.ai_variance > 15/100 then
    (.UNDECIDED, none, ["CONTRADICTION_DETECTED"])
  else if ct.risk_profile = "monitor" then
    if agg.ai_confidence_mean ≥ tt then (.VERIFIED_TRUE, some .AI_AUTOVALIDATION, [])
    else if agg.ai_confidence_mean ≤ ft then (.VERIFIED_FALSE, some .AI_AUTOVALIDATION, [])
    else (.INVESTIGATING, none, [])
  else
    let recFlags :=
      if agg.ai_confidence_mean ≥ tt then ["AI_RECOMMENDS_TRUE"]
      else if agg.ai_confidence_mean ≤ ft then ["AI_RECOMMENDS_FALSE"]
      else []
    (.PENDING_HUMAN_REVIEW, none, recFlags ++ ["AWAITING_HUMAN_CONSENSUS"])

/-- `ConfidenceBreakdown` as built by `_compute_confidence`: the components
dict is `{"ai_confidence": mean}` and the modifiers dict is
`{"contradiction_detected": -0.2}` exactly when the flag is present. -/
structure ConfidenceBreakdown where
  ai_confidence_component : ℚ
  contradiction_modifier : Bool
  raw_score : ℚ
  final_score : ℚ
deriving DecidableEq

/-- `_compute_confidence`: raw score is the AI mean, minus 0.2 under a
contradiction flag; final score clamps to [0,1]. -/
def computeConfidenceBd (agg : Aggregate) (flags : List String) : ConfidenceBreakdown :=
  let c := agg.ai_confidence_mean
  let contra := flags.contains "CONTRADICTION_DETECTED"
  let raw := if contra then c - 2/10 else c
  ⟨c, contra, raw, max 0 (min 1 raw)⟩

/-! ## TruthState (kaori_truth/primitives/truthstate.py) -/

structure CompileInputs where
  observation_ids : List String
  claim_type_id : String
  claim_type_hash : ClaimTypeCanon
  policy_version : String
  compiler_version : String
  trust_snapshot_hash : Option SnapHashContent
  compile_time : Micros
deriving DecidableEq

/-- `TruthState.semantic_content()` — the content committed to by
`semantic_hash` (excludes `compile_time` and `compiler_version`). -/
structure SemanticContent where
  truthkey : String
  claim_type : String
  claim_type_hash : ClaimTypeCanon
  claim : ClaimPayload
  status : TruthStatus
  verification_basis : Option VerificationBasis
  ai_confidence : ℚ
  confidence : ℚ
  transparency_flags : List String
  evidence_refs : List String
  observation_ids : List String
  trust_snapshot_hash : Option SnapHashContent
  policy_version : String
deriving DecidableEq

/-- `TruthState.full_envelope()` — the content committed to by `state_hash`
(the semantic content plus canonical `compile_time` and
`compiler_version`). -/
structure Envelope where
  semantic : SemanticContent
  compile_time : ℤ
  compiler_version : String
deriving DecidableEq

/-- `SecurityBlock`; the hash strings are modelled by the canonical content
they commit to, the empty placeholder by `none`. -/
structure SecurityBlock where
  semantic_hash : Option SemanticContent
  state_hash : Option Envelope
  signature : String
  signing_method : String
  key_id : String
  signed_at : Micros

structure TruthState where
  truthkey : String
  claim_type : String
  claim_type_hash : ClaimTypeCanon
  status : TruthStatus
  verification_basis : Option VerificationBasis
  claim : ClaimPayload
  ai_confidence : ℚ
  confidence : ℚ
  confidence_breakdown : ConfidenceBreakdown
  transparency_flags : List String
  compile_inputs : CompileInputs
  evidence_refs : List String
  observation_ids : List String
  consensus : Option ConsensusRecord
  security : SecurityBlock

/-- `TruthState.semantic_content()`. -/
def TruthState.semanticContent (ts : TruthState) : SemanticContent :=
  { truthkey := ts.truthkey
    claim_type := lowerStr ts.claim_type
    claim_type_hash := ts.claim_type_hash
    claim := ts.claim
    status := ts.status
    verification_basis := ts.verification_basis
    ai_confidence := pyRound 6 ts.ai_confidence
    confidence := pyRound 6 ts.confidence
    transparency_flags := sortBy strLt ts.transparency_flags
    evidence_refs := sortBy strLt ts.evidence_refs
    observation_ids := sortBy strLt ts.observation_ids
    trust_snapshot_hash := ts.compile_inputs.trust_snapshot_hash
    policy_version := ts.compile_inputs.policy_version }

/-- `TruthState.full_envelope()`. -/
def TruthState.fullEnvelope (ts : TruthState) : Envelope :=
  { semantic := ts.semanticContent
    compile_time := canonicalDatetimeSec ts.compile_inputs.compile_time
    compiler_version := ts.compile_inputs.compiler_version }

/-- `TruthState.verify_hashes()`: the stored hashes match the recomputed
ones. -/
def TruthState.verifyHashes (ts : TruthState) : Prop :=
  ts.security.semantic_hash = some ts.semanticContent ∧
    ts.security.state_hash = some ts.fullEnvelope

/-! ## The compiler (kaori_truth/compiler.py, `compile_truth_state`) -/

/-- Steps 2–7 of `compile_truth_state`, after the validation of
`compile_time`, non-empty observations and the snapshot hash. -/
def compileBody (claim_type : ClaimType) (truth_key : String)
    (observations : List Observation) (trust_snapshot : TrustSnapshot)
    (policy_version compiler_version : String) (ctime : Micros)
    (aiScores : Option (List ℚ)) (votes : Option (List Vote)) :
    Except String TruthState :=
  let observation_ids := sortBy strLt (observations.map (·.observation_id))
  let evidence_refs := sortBy strLt ((observations.map (·.evidence_refs)).flatten.eraseDups)
  let compile_inputs : CompileInputs :=
    { observation_ids := observation_ids
      claim_type_id := claim_type.id
      claim_type_hash := claimTypeCanon claim_type
      policy_version := policy_version
      compiler_version := compiler_version
      trust_snapshot_hash := trust_snapshot.snapshot_hash
      compile_time := ctime }
  let aggregate := computeObservationAggregate observations trust_snapshot aiScores
  match deriveClaimPayload trust_snapshot claim_type observations with
  | .error e => .error ("Claim derivation failed: " ++ e)
  | .ok validated_payload =>
    let sbf := determineStatus aggregate claim_type (votes.getD [])
    let breakdown := computeConfidenceBd aggregate sbf.2.2
    let ts0 : TruthState :=
      { truthkey := truth_key
        claim_type := claim_type.id
        claim_type_hash := claimTypeCanon claim_type
        status := sbf.1
        verification_basis := sbf.2.1
        claim := validated_payload
        ai_confidence := aggregate.ai_confidence_mean
        confidence := breakdown.final_score
        confidence_breakdown := breakdown
        transparency_flags := sbf.2.2
        compile_inputs := compile_inputs
        evidence_refs := evidence_refs
        observation_ids := observation_ids
        consensus := none
        security :=
          { semantic_hash := none, state_hash := none, signature := ""
            signing_method := "pending", key_id := "pending", signed_at := ctime } }
    .ok { ts0 with
          security :=
            { semantic_hash := some ts0.semanticContent
              state_hash := some ts0.fullEnvelope
              signature := ""
              signing_method := "pending"
              key_id := "pending"
              signed_at := ctime } }

/-- `compile_truth_state`: validation then the pure pipeline.  The `votes`
argument is threaded to `_determine_status` (which ignores it) and the
returned state's `consensus` is `None`, as in the source. -/
def compileTruthState (claim_type : ClaimType) (truth_key : String)
    (observations : List Observation) (trust_snapshot : TrustSnapshot)
    (policy_version : String) (compiler_version : String := "1.0.0")
    (compile_time : Option Micros := none) (aiScores : Option (List ℚ) := none)
    (votes : Option (List Vote) := none) : Except String TruthState :=
  match compile_time with
  | none => .error "compile_time MUST be explicitly provided for determinism"
  | some ctime =>
    if observations = [] then .error "At least one observation is required"
    else if verifyHashB trust_snapshot then
      compileBody claim_type truth_key observations trust_snapshot policy_version
        compiler_version ctime aiScores votes
    else .error "TrustSnapshot hash mismatch"

theorem verifyHashB_mkSnapshot (id : String) (t : Micros) (l : List (String × AgentTrust)) :
    verifyHashB (mkSnapshot id t l) = true := by
  simp [verifyHashB, mkSnapshot]

/-- Lift a predicate to successful compile results (failed compiles return no
`TruthState`, so nothing is asserted of them). -/
def okImpliesVerify : Except String TruthState → Prop
  | .ok ts => ts.verifyHashes
  | .error _ => True

/-- Project a field of a successful compile result. -/
def resultField (f : TruthState → α) : Except String TruthState → Option α
  | .ok ts => some (f ts)
  | .error _ => none

/-- Relate two compile results when both succeed. -/
def bothOk (P : TruthState → TruthState → Prop) :
    Except String TruthState → Except String TruthState → Prop
  | .ok a, .ok b => P a b
  | _, _ => True

/-- C9: every `TruthState` returned by a successful `compile_truth_state`
satisfies the self-hash invariant — `security.semantic_hash` equals the
recomputed semantic hash and `security.state_hash` the recomputed state
hash, i.e. `verify_hashes()` holds on the returned value. -/
theorem C9_compile_verify_hashes (ct : ClaimType) (tk : String) (obs : List Observation)
    (snap : TrustSnapshot) (pv cv : String) (cts : Option Micros)
    (ai : Option (List ℚ)) (votes : Option (List Vote)) :
    okImpliesVerify (compileTruthState ct tk obs snap pv cv cts ai votes) := by
  unfold compileTruthState
  cases cts with
  | none => trivial
  | some ctime =>
    by_cases hobs : obs = []
    · simp [hobs, okImpliesVerify]
    · by_cases hsnap : verifyHashB snap
      · simp only [if_neg hobs, if_pos hsnap]
        unfold compileBody
        cases hd : deriveClaimPayload snap ct obs with
        | error e => simp [okImpliesVerify]
        | ok payload =>
            simp only [okImpliesVerify]
            exact ⟨rfl, rfl⟩
      · simp [hobs, hsnap, okImpliesVerify]

/-- Comparison of two compiles that differ only in `compile_time` and/or
`compiler_version` (shared helper): when both succeed, their semantic hashes
agree, and their state hashes agree exactly when the canonical
second-precision compile times and the compiler versions agree. -/
theorem compile_hash_compare (ct : ClaimType) (tk : String) (obs : List Observation)
    (snap : TrustSnapshot) (pv : String) (cv₁ cv₂ : String) (t₁ t₂ : Micros)
    (ai : Option (List ℚ)) (votes : Option (List Vote)) :
    bothOk (fun a b =>
        a.security.semantic_hash = b.security.semantic_hash ∧
        (a.security.state_hash = b.security.state_hash ↔
          canonicalDatetimeSec t₁ = canonicalDatetimeSec t₂ ∧ cv₁ = cv₂))
      (compileTruthState ct tk obs snap pv cv₁ (some t₁) ai votes)
      (compileTruthState ct tk obs snap pv cv₂ (some t₂) ai votes) := by
  unfold compileTruthState
  by_cases hobs : obs = []
  · simp [hobs, bothOk]
  · by_cases hsnap : verifyHashB snap
    · simp only [if_neg hobs, if_pos hsnap]
      unfold compileBody
      cases hd : deriveClaimPayload snap ct obs with
      | error e => simp [bothOk]
      | ok payload =>
          simp only [bothOk]
          refine ⟨rfl, ?_⟩
          simp only [Option.some.injEq]
          constructor
          · intro h
            have h1 := congrArg Envelope.compile_time h
            have h2 := congrArg Envelope.compiler_version h
            exact ⟨h1, h2⟩
          · intro ⟨h1, h2⟩
            simp only [TruthState.fullEnvelope]
            rw [h2]
            congr 1
    · simp [hobs, hsnap, bothOk]

/-- C1 (amended): for two calls to `compile_truth_state` identical except for
`compile_time` and/or `compiler_version`, whenever both succeed the semantic
hashes are equal, and the state hashes are equal exactly when the canonical
(second-precision) compile times and the compiler versions are equal — so
`semantic_content` excludes both fields and `full_envelope` includes both,
but a sub-second change of `compile_time` does NOT change `state_hash`. -/
theorem C1_semantic_stable_state_sensitive (ct : ClaimType) (tk : String)
    (obs : List Observation) (snap : TrustSnapshot) (pv : String) (cv₁ cv₂ : String)
    (t₁ t₂ : Micros) (ai : Option (List ℚ)) (votes : Option (List Vote)) :
    bothOk (fun a b =>
        a.security.semantic_hash = b.security.semantic_hash ∧
        (a.security.state_hash = b.security.state_hash ↔
          canonicalDatetimeSec t₁ = canonicalDatetimeSec t₂ ∧ cv₁ = cv₂))
      (compileTruthState ct tk obs snap pv cv₁ (some t₁) ai votes)
      (compileTruthState ct tk obs snap pv cv₂ (some t₂) ai votes) :=
  compile_hash_compare ct tk obs snap pv cv₁ cv₂ t₁ t₂ ai votes

/-! ## Concrete compile inputs used by counterexamples and witnesses -/

def ctE : ClaimType := { id := "earth.flood.v1", version := 1, domain := "earth", topic := "flood" }

def trustR1 : AgentTrust :=
  { agent_id := "r1", effective_power := 150, standing := 200, derived_class := "bronze"
    flags := [] }

def snapA : TrustSnapshot := mkSnapshot "s1" 0 [("r1", trustR1)]

def obsA : Observation :=
  { observation_id := "o1", reporter_id := "r1"
    payload := { severity := some "high", water_level := .value (3/2) }
    evidence_refs := ["https://example.com/e1"] }

def tkE : String := "earth:flood:h3:886142a8e7fffff:surface:2026-01-07T12:00Z"

def compileAt (t : Micros) : Except String TruthState :=
  compileTruthState ctE tkE [obsA] snapA "pol1" "1.0.0" (some t) none none

theorem deriveClaimPayload_ctE (snap : TrustSnapshot) (obs : List Observation)
    (h : obs ≠ []) : deriveClaimPayload snap ctE obs = .ok (deriveEarthClaim snap obs) := by
  simp only [deriveClaimPayload]
  rw [if_neg h, if_pos (by left; decide)]

theorem compileAt_isOk (t : Micros) : (compileAt t).isOk = true := by
  simp only [compileAt, compileTruthState, snapA]
  rw [if_neg (by decide : ¬ ([obsA] = [])), if_pos (verifyHashB_mkSnapshot _ _ _)]
  simp only [compileBody, deriveClaimPayload_ctE _ _ (by decide : ([obsA] : List Observation) ≠ [])]
  rfl

/-- C1 (counterexample): two compiles identical except for `compile_time`
(0µs versus 1µs, distinct datetimes within the same second) both succeed,
leave `semantic_hash` unchanged — and ALSO leave `state_hash` unchanged,
contradicting the claim that the state hashes of the two results differ. -/
theorem C1_counterexample :
    (0 : Micros) ≠ 1 ∧
    (compileAt 0).isOk = true ∧ (compileAt 1).isOk = true ∧
    resultField (fun ts => ts.security.semantic_hash) (compileAt 0) =
      resultField (fun ts => ts.security.semantic_hash) (compileAt 1) ∧
    resultField (fun ts => ts.security.state_hash) (compileAt 0) =
      resultField (fun ts => ts.security.state_hash) (compileAt 1) := by
  have hb : bothOk (fun a b =>
      a.security.semantic_hash = b.security.semantic_hash ∧
      (a.security.state_hash = b.security.state_hash ↔
        canonicalDatetimeSec 0 = canonicalDatetimeSec 1 ∧ ("1.0.0" : String) = "1.0.0"))
      (compileAt 0) (compileAt 1) :=
    compile_hash_compare ctE tkE [obsA] snapA "pol1" "1.0.0" "1.0.0" 0 1 none none
  have h0 := compileAt_isOk 0
  have h1 := compileAt_isOk 1
  cases e0 : compileAt 0 with
  | error e => rw [e0] at h0; simp [Except.isOk, Except.toBool] at h0
  | ok a =>
    cases e1 : compileAt 1 with
    | error e => rw [e1] at h1; simp [Except.isOk, Except.toBool] at h1
    | ok b =>
      rw [e0, e1] at hb
      rw [e0] at h0
      rw [e1] at h1
      simp only [bothOk] at hb
      obtain ⟨hsem, hiff⟩ := hb
      refine ⟨by decide, h0, h1, ?_, ?_⟩
      · simp [resultField, hsem]
      · have : a.security.state_hash = b.security.state_hash := hiff.mpr (by decide)
        simp [resultField, this]

/-! ## C2: OVERRIDE votes and the compiler -/

/-- The S4 scenario votes: two REJECTs (standing 50) plus one OVERRIDE by an
agent at the 500 override threshold. -/
noncomputable def votesS4 : List Vote :=
  [⟨"v1", 50, "REJECT"⟩, ⟨"v2", 50, "REJECT"⟩, ⟨"auth", 500, "OVERRIDE"⟩]

noncomputable def compileS4 : Except String TruthState :=
  compileTruthState ctE tkE [obsA] snapA "pol1" "1.0.0" (some 0) none (some votesS4)

theorem computeConsensus_votesS4 :
    (computeConsensus votesS4 15 (-10)).finalized = true ∧
    (computeConsensus votesS4 15 (-10)).positive_ratio = 1 := by
  have h1 : ¬ (("REJECT" : String) = "RATIFY") := by decide
  have h2 : ¬ (("OVERRIDE" : String) = "RATIFY") := by decide
  have h3 : ¬ (("OVERRIDE" : String) = "REJECT") := by decide
  have h5 : ((500 : ℝ) ≥ 500) := le_refl _
  simp only [computeConsensus, votesS4, computeConsensusLoop, if_neg h1, if_neg h2, if_neg h3,
    if_pos rfl, if_pos h5]
  exact ⟨rfl, rfl⟩

theorem aggregate_single_defaultAI (snap : TrustSnapshot) (o : Observation) :
    computeObservationAggregate [o] snap none = ⟨1, networkTrust snap [o], 1/2, 0⟩ := by
  simp only [computeObservationAggregate, if_neg (by simp : ¬ ([o] = [])),
    List.replicate, List.length_cons, List.length_nil, List.sum_cons, List.sum_nil]
  refine congrArg₂ (Aggregate.mk 1 (networkTrust snap [o])) ?_ ?_
  · norm_num [pyRound, roundHalfEven]
  · norm_num [pyRound, roundHalfEven]

theorem determineStatus_ctE_half (nt : ℚ) (votes : List Vote) :
    determineStatus ⟨1, nt, 1/2, 0⟩ ctE votes = (.INVESTIGATING, none, []) := by
  simp only [determineStatus, ctE]
  norm_num

/-- C2: the claim says a `compile_truth_state` call whose votes contain an
OVERRIDE by an agent with standing ≥ 500 returns a state with
`consensus.finalized = true`, `status = VERIFIED_TRUE` and
`verification_basis = HUMAN_CONSENSUS`.  `compute_consensus` does finalize on
such an OVERRIDE (first two conjuncts), but `compile_truth_state` never calls
it: on the S4 votes it returns `consensus = None`, an AI-lane status
(`INVESTIGATING` here) and no verification basis. -/
theorem C2_override_votes_ignored_by_compiler :
    (computeConsensus votesS4 15 (-10)).finalized = true ∧
    (computeConsensus votesS4 15 (-10)).positive_ratio = 1 ∧
    resultField (fun ts => ts.consensus.isNone) compileS4 = some true ∧
    resultField (fun ts => ts.status) compileS4 = some .INVESTIGATING ∧
    resultField (fun ts => ts.verification_basis) compileS4 = some none := by
  obtain ⟨hf, hr⟩ := computeConsensus_votesS4
  refine ⟨hf, hr, ?_, ?_, ?_⟩ <;>
  · have hv : verifyHashB snapA = true := verifyHashB_mkSnapshot "s1" 0 [("r1", trustR1)]
    simp only [compileS4, compileTruthState]
    rw [if_neg (by decide : ¬ ([obsA] = [])), if_pos hv]
    simp only [compileBody, deriveClaimPayload_ctE snapA [obsA] (by decide),
      aggregate_single_defaultAI, Option.getD_some, determineStatus_ctE_half]
    simp [resultField]

/-! ## C6: severity tie-breaking in earth/ocean claim derivation -/

/-- The total weight a severity holds in the `severity_weights` dict
(`0` for an absent key, matching `severity_weights.get(s, 0)`). -/
def sevValue (l : List (String × ℚ)) (s : String) : ℚ := (lookupA l s).getD 0

def obsB1 : Observation :=
  { observation_id := "b1", reporter_id := "r1", payload := { severity := some "b" } }

def obsA1 : Observation :=
  { observation_id := "a1", reporter_id := "r1", payload := { severity := some "a" } }

/-- C6 (counterexample): two observations by the same reporter (power 150)
with severities `"b"` then `"a"` tie at weight 150 each, yet the derived
severity is `"b"` — the first-inserted key — not the lexicographically
smaller `"a"`; reversing the observation list flips the result to `"a"`, so
the tie-break is order-dependent, contradicting the claim. -/
theorem C6_counterexample :
    sevValue (severityWeights snapA [obsB1, obsA1]) "a" =
      sevValue (severityWeights snapA [obsB1, obsA1]) "b" ∧
    (deriveEarthClaim snapA [obsB1, obsA1]).severity = some "b" ∧
    (deriveEarthClaim snapA [obsA1, obsB1]).severity = some "a" ∧
    strLt "a" "b" = true := by
  refine ⟨by decide, by decide, by decide, by decide⟩

/-- CPython `max(keys, key=weights.get)` keeps the current maximum on ties,
so it returns the LEFTMOST entry attaining the maximal weight: everything
before it is strictly smaller, everything after it is at most it. -/
theorem pyMaxSnd_spec (best : String × ℚ) (l : List (String × ℚ)) :
    ∃ pre post, best :: l = pre ++ (pyMaxSnd best l) :: post ∧
      (∀ p ∈ pre, p.2 < (pyMaxSnd best l).2) ∧
      (∀ p ∈ post, p.2 ≤ (pyMaxSnd best l).2) := by
  induction l generalizing best with
  | nil => exact ⟨[], [], rfl, by simp, by simp⟩
  | cons p rest ih =>
    by_cases h : best.2 < p.2
    · obtain ⟨pre, post, heq, hpre, hpost⟩ := ih p
      have hm : pyMaxSnd best (p :: rest) = pyMaxSnd p rest := by simp [pyMaxSnd, h]
      refine ⟨best :: pre, post, ?_, ?_, ?_⟩
      · rw [hm, List.cons_append, ← heq]
      · intro q hq
        rcases List.mem_cons.mp hq with rfl | hq'
        · rw [hm]
          have hple : p.2 ≤ (pyMaxSnd p rest).2 := by
            have hp : p ∈ pre ++ (pyMaxSnd p rest) :: post := by
              rw [← heq]; exact List.mem_cons_self _ _
            rcases List.mem_append.mp hp with h1 | h2
            · exact le_of_lt (hpre p h1)
            · rcases List.mem_cons.mp h2 with he | h3
              · exact le_of_eq (congrArg Prod.snd he)
              · exact hpost p h3
          exact lt_of_lt_of_le h hple
        · rw [hm]; exact hpre q hq'
      · intro q hq; rw [hm]; exact hpost q hq
    · obtain ⟨pre, post, heq, hpre, hpost⟩ := ih best
      have hm : pyMaxSnd best (p :: rest) = pyMaxSnd best rest := by simp [pyMaxSnd, h]
      cases pre with
      | nil =>
        simp only [List.nil_append] at heq
        have hb : best = pyMaxSnd best rest := (List.cons_eq_cons.mp heq).1
        have hr : rest = post := (List.cons_eq_cons.mp heq).2
        refine ⟨[], p :: rest, ?_, by simp, ?_⟩
        · rw [hm, ← hb]; rfl
        · intro q hq
          rcases List.mem_cons.mp hq with rfl | hq'
          · rw [hm, ← hb]; exact le_of_not_lt h
          · rw [hm]; exact hpost q (hr ▸ hq')
      | cons b0 pre0 =>
        simp only [List.cons_append] at heq
        have hb : best = b0 := (List.cons_eq_cons.mp heq).1
        have hr : rest = pre0 ++ (pyMaxSnd best rest) :: post := (List.cons_eq_cons.mp heq).2
        have hbestlt : best.2 < (pyMaxSnd best rest).2 := by
          have hb0 := hpre b0 (List.mem_cons_self _ _)
          rw [← hb] at hb0
          exact hb0
        refine ⟨best :: p :: pre0, post, ?_, ?_, ?_⟩
        · rw [hm]
          show best :: p :: rest = best :: p :: (pre0 ++ (pyMaxSnd best rest) :: post)
          rw [← hr]
        · intro q hq
          rcases List.mem_cons.mp hq with rfl | hq'
          · rw [hm]; exact hbestlt
          · rcases List.mem_cons.mp hq' with rfl | hq''
            · rw [hm]; exact lt_of_le_of_lt (le_of_not_lt h) hbestlt
            · rw [hm]; exact hpre q (List.mem_cons_of_mem _ hq'')
        · intro q hq; rw [hm]; exact hpost q hq

/-- C6 (amended): on equal weighted severity votes, the severity whose key
was inserted FIRST into the weights dict (i.e. the severity appearing
earliest in the observation list) wins, not the lexicographically smaller
one: the derived severity is the leftmost entry of the insertion-ordered
weights dict attaining the maximal weight. -/
theorem C6_severity_first_max_wins (snap : TrustSnapshot) (obs : List Observation)
    (q : String × ℚ) (l : List (String × ℚ)) (hsw : severityWeights snap obs = q :: l) :
    (deriveEarthClaim snap obs).severity = some (pyMaxSnd q l).1 ∧
    ∃ pre post, q :: l = pre ++ (pyMaxSnd q l) :: post ∧
      (∀ p ∈ pre, p.2 < (pyMaxSnd q l).2) ∧
      (∀ p ∈ post, p.2 ≤ (pyMaxSnd q l).2) := by
  constructor
  · simp only [deriveEarthClaim, hsw]
  · exact pyMaxSnd_spec q l

/-- Witness for C6 (amended) at the concrete tied input: the weights dict is
`[("b",150),("a",150)]` and the winner is its leftmost maximal entry
`"b"`. -/
theorem C6_severity_first_max_wins_witness :
    severityWeights snapA [obsB1, obsA1] = [("b", 150), ("a", 150)] ∧
    (deriveEarthClaim snapA [obsB1, obsA1]).severity =
      some (pyMaxSnd ("b", 150) [("a", 150)]).1 :=
  ⟨by decide,
   (C6_severity_first_max_wins snapA [obsB1, obsA1] ("b", 150) [("a", 150)] (by decide)).1⟩

/-! ## C10: observations from reporters absent from the trust snapshot -/

theorem lookupA_cons (k : String) (v : α) (rest : List (String × α)) (x : String) :
    lookupA ((k, v) :: rest) x = if k = x then some v else lookupA rest x := by
  by_cases h : k = x <;> simp [lookupA, List.find?_cons, h]

theorem sevValue_addSevWeight (l : List (String × ℚ)) (s : String) (w : ℚ) (x : String) :
    sevValue (addSevWeight l s w) x = if x = s then sevValue l x + w else sevValue l x := by
  induction l with
  | nil =>
      by_cases hx : x = s
      · subst hx; simp [addSevWeight, sevValue, lookupA_cons, lookupA]
      · have hsx : ¬ (s = x) := fun h => hx h.symm
        simp [addSevWeight, sevValue, lookupA_cons, hsx, lookupA, hx]
  | cons kv rest ih =>
      obtain ⟨k, v⟩ := kv
      by_cases hks : k = s
      · subst hks
        by_cases hx : x = k
        · subst hx; simp [addSevWeight, sevValue, lookupA_cons]
        · have hkx : ¬ (k = x) := fun h => hx h.symm
          simp [addSevWeight, sevValue, lookupA_cons, hkx, hx]
      · simp only [addSevWeight, if_neg hks]
        by_cases hx : x = k
        · subst hx
          have hxs : ¬ (x = s) := hks
          simp [sevValue, lookupA_cons, hxs]
        · have hkx : ¬ (k = x) := fun h => hx h.symm
          simp only [sevValue, lookupA_cons, if_neg hkx]
          exact ih

/-- The per-observation step of `severity_weights` building. -/
def sevStep (snap : TrustSnapshot) (acc : List (String × ℚ)) (o : Observation) :
    List (String × ℚ) :=
  addSevWeight acc (severityOf o.payload) (getPower snap o.reporter_id)

theorem severityWeights_def (snap : TrustSnapshot) (obs : List Observation) :
    severityWeights snap obs = obs.foldl (sevStep snap) [] := rfl

theorem sevValue_foldl_congr (snap : TrustSnapshot) (obs : List Observation)
    (a b : List (String × ℚ)) (h : ∀ x, sevValue a x = sevValue b x) :
    ∀ x, sevValue (obs.foldl (sevStep snap) a) x = sevValue (obs.foldl (sevStep snap) b) x := by
  induction obs generalizing a b with
  | nil => exact h
  | cons o rest ih =>
      intro x
      simp only [List.foldl_cons]
      refine ih (sevStep snap a o) (sevStep snap b o) (fun y => ?_) x
      simp only [sevStep, sevValue_addSevWeight, h y]

theorem deriveClaimPayload_isOk (snap : TrustSnapshot) (ct : ClaimType)
    (obs : List Observation) (h : obs ≠ []) :
    ∃ p, deriveClaimPayload snap ct obs = .ok p := by
  simp only [deriveClaimPayload, if_neg h]
  split <;> exact ⟨_, rfl⟩

theorem compile_isOk (ct : ClaimType) (tk : String) (obs : List Observation)
    (snap : TrustSnapshot) (pv cv : String) (t : Micros) (ai : Option (List ℚ))
    (votes : Option (List Vote)) (hobs : obs ≠ []) (hsnap : verifyHashB snap = true) :
    (compileTruthState ct tk obs snap pv cv (some t) ai votes).isOk = true := by
  simp only [compileTruthState]
  rw [if_neg hobs, if_pos hsnap]
  simp only [compileBody]
  obtain ⟨p, hp⟩ := deriveClaimPayload_isOk snap ct obs hobs
  rw [hp]
  rfl

/-- C10: an observation whose `reporter_id` is absent from
`trust_snapshot.agent_trusts` does not break compilation or derivation and
contributes exactly `0.0` power: `get_power` returns 0, compilation still
succeeds, `network_trust` is unchanged, every severity's total vote weight
is unchanged, and the water-level weighted sum and weight are unchanged. -/
theorem C10_unknown_reporter_zero_power (snap : TrustSnapshot) (r : String)
    (hr : lookupA snap.agent_trusts r = none) (u : Observation) (hu : u.reporter_id = r)
    (pre post : List Observation) (ct : ClaimType) (tk pv cv : String) (t : Micros)
    (ai : Option (List ℚ)) (votes : Option (List Vote))
    (hsnap : verifyHashB snap = true) :
    getPower snap r = 0 ∧
    (compileTruthState ct tk (pre ++ u :: post) snap pv cv (some t) ai votes).isOk = true ∧
    networkTrust snap (pre ++ u :: post) = networkTrust snap (pre ++ post) ∧
    (∀ s, sevValue (severityWeights snap (pre ++ u :: post)) s =
      sevValue (severityWeights snap (pre ++ post)) s) ∧
    waterNum snap (pre ++ u :: post) = waterNum snap (pre ++ post) ∧
    waterDen snap (pre ++ u :: post) = waterDen snap (pre ++ post) := by
  have hp0 : getPower snap u.reporter_id = 0 := by
    rw [hu]; simp [getPower, hr]
  refine ⟨by simp [getPower, hr], ?_, ?_, ?_, ?_, ?_⟩
  · exact compile_isOk ct tk _ snap pv cv t ai votes (by simp) hsnap
  · simp [networkTrust, hp0]
  · intro s
    rw [severityWeights_def, severityWeights_def, List.foldl_append, List.foldl_append,
      List.foldl_cons]
    refine sevValue_foldl_congr snap post _ _ (fun y => ?_) s
    simp only [sevStep, sevValue_addSevWeight, hp0, add_zero, ite_self]
  · simp only [waterNum, List.map_append, List.sum_append, List.map_cons, List.sum_cons]
    have : (match u.payload.water_level with
        | .value q => q * getPower snap u.reporter_id
        | _ => 0) = 0 := by
      cases u.payload.water_level <;> simp [hp0]
    rw [this, zero_add]
  · simp only [waterDen, List.map_append, List.sum_append, List.map_cons, List.sum_cons]
    have : (match u.payload.water_level with
        | .value _ => getPower snap u.reporter_id
        | _ => 0) = 0 := by
      cases u.payload.water_level <;> simp [hp0]
    rw [this, zero_add]

def obsGhost : Observation :=
  { observation_id := "g1", reporter_id := "ghost"
    payload := { severity := some "low", water_level := .value 2 } }

/-- Witness for C10: reporter `"ghost"` is absent from `snapA`; with one
known observation before it, all conclusions hold at this input (the
severity-weight conclusion instantiated at `"low"`). -/
theorem C10_unknown_reporter_zero_power_witness :
    lookupA snapA.agent_trusts "ghost" = none ∧
    getPower snapA "ghost" = 0 ∧
    (compileTruthState ctE tkE [obsA, obsGhost] snapA "pol1" "1.0.0" (some 0)
      none none).isOk = true ∧
    networkTrust snapA [obsA, obsGhost] = networkTrust snapA [obsA] ∧
    sevValue (severityWeights snapA [obsA, obsGhost]) "low" =
      sevValue (severityWeights snapA [obsA]) "low" ∧
    waterNum snapA [obsA, obsGhost] = waterNum snapA [obsA] ∧
    waterDen snapA [obsA, obsGhost] = waterDen snapA [obsA] := by
  have h := C10_unknown_reporter_zero_power snapA "ghost" (by decide) obsGhost (by decide)
    [obsA] [] ctE tkE "pol1" "1.0.0" 0 none none
    (verifyHashB_mkSnapshot "s1" 0 [("r1", trustR1)])
  exact ⟨by decide, h.1, h.2.1, h.2.2.1, h.2.2.2.1 "low", h.2.2.2.2.1, h.2.2.2.2.2⟩

/-! # Flow-side data model (packages/kaori-flow)

The trust reducer and effective-trust computation.  Standings and trust are
real-valued (`math.log`/`math.exp` are applied to them); signal payload
numbers are exact rationals (every CPython float is a dyadic rational). -/

/-- Signal payload, restricted to the keys the reducer and trust computation
read (`role`, `contributors`, `outcome`, `quality_score`, `amount`,
`policy_agent_id`). -/
structure SigPayload where
  role : Option String := none
  contributors : List String := []
  outcome : Option String := none
  quality_score : Option ℚ := none
  amount : Option ℚ := none
  policy_agent_id : Option String := none
deriving DecidableEq

/-- `Signal` (kaori_flow/primitives/signal.py), restricted to the fields the
reducer and trust computation read. -/
structure Signal where
  signal_id : String
  signal_type : String
  time : Micros
  agent_id : String
  object_id : String
  payload : SigPayload := {}
deriving DecidableEq

/-! ## FlowPolicy (kaori_flow/policy.py), with its defaults -/

structure StandingGainConfig where
  coefficient : ℝ := 5

structure SaturationConfig where
  steepness : ℝ := 1/100
  midpoint : ℝ := 500
  max_standing : ℝ := 1000

structure PenaltyConfig where
  coefficient : ℝ := 5
  amplifier : ℝ := 2

structure BoundsConfig where
  min : ℝ := 0
  max : ℝ := 1000
  initial_by_role : List (String × ℝ) :=
    [("observer", 200), ("validator", 250), ("expert", 350), ("authority", 500),
     ("policy", 500)]

structure VouchModCfg where
  enabled : Bool := true
  max_bonus_fraction : ℝ := 15/100
  per_vouch_fraction : ℝ := 5/100
  edge_weight_decay_per_day : ℝ := 1/100

structure SelfDealingCfg where
  enabled : Bool := true
  discount_factor : ℝ := 1/2

structure ProbeCreatorCfg where
  enabled : Bool := true
  min_creator_standing : ℝ := 500
  bonus_fraction : ℝ := 5/100

structure NetworkModifiersCfg where
  claimtype_collaborator_vouch : VouchModCfg := {}
  self_dealing : SelfDealingCfg := {}
  probe_creator_bonus : ProbeCreatorCfg := {}

structure PhaseTransitionsCfg where
  dormant_threshold : ℝ := 300
  dominant_threshold : ℝ := 700
  dormant_weight_multiplier : ℝ := 1/10

structure VouchEdgeCfg where
  base_weight : ℝ := 1
  decay_rate_per_day : ℝ := 1/100

structure EdgeWeightsCfg where
  vouch : VouchEdgeCfg := {}

structure FlowPolicy where
  agent_id : String := "policy:flow_v1.0.0"
  version : String := "1.0.0"
  standing_gain : StandingGainConfig := {}
  saturation : SaturationConfig := {}
  penalty : PenaltyConfig := {}
  bounds : BoundsConfig := {}
  network_modifiers : NetworkModifiersCfg := {}
  phase_transitions : PhaseTransitionsCfg := {}
  edge_weights : EdgeWeightsCfg := {}

/-- `FlowPolicy.default()`: all defaults. -/
noncomputable def defaultFlowPolicy : FlowPolicy := {}

/-- `FlowPolicy.get_initial_standing(role)`. -/
noncomputable def FlowPolicy.getInitialStanding (p : FlowPolicy) (role : String) : ℝ :=
  (lookupA p.bounds.initial_by_role role).getD 200

/-! ## Reducer (kaori_flow/reducer.py) -/

/-- `ReducerState`: derived standings and roles. -/
structure ReducerState where
  standings : List (String × ℝ) := []
  agent_roles : List (String × String) := []

/-- Dict assignment `d[k] = v` on an insertion-ordered association list:
update in place if present, else append. -/
def setA (l : List (String × α)) (k : String) (v : α) : List (String × α) :=
  match l with
  | [] => [(k, v)]
  | (k', v') :: rest => if k' = k then (k', v) :: rest else (k', v') :: setA rest k v

/-- `_handle_agent_registered`: bootstrap standing only if unset. -/
noncomputable def handleAgentRegistered (p : FlowPolicy) (st : ReducerState) (s : Signal) :
    ReducerState :=
  let agent := s.object_id
  let role := s.payload.role.getD "observer"
  if lookupA st.standings agent = none then
    { standings := setA st.standings agent (p.getInitialStanding role)
      agent_roles := setA st.agent_roles agent role }
  else st

/-- `_handle_policy_registered`. -/
noncomputable def handlePolicyRegistered (p : FlowPolicy) (st : ReducerState) (s : Signal) :
    ReducerState :=
  let pid := s.object_id
  if lookupA st.standings pid = none then
    { standings := setA st.standings pid (p.getInitialStanding "policy")
      agent_roles := setA st.agent_roles pid "policy" }
  else st

/-- The per-contributor update of `_handle_truthstate_emitted`: nonlinear
gain `a·log(1+q)` on `correct`, sharper penalty `−b·λ·log(1+q)` on
`incorrect`, clamped to the policy bounds. -/
noncomputable def applyContributor (p : FlowPolicy) (outcome : String) (q : ℝ)
    (standings : List (String × ℝ)) (agent : String) : List (String × ℝ) :=
  let standings :=
    if lookupA standings agent = none then
      setA standings agent (p.getInitialStanding "observer")
    else standings
  let current := (lookupA standings agent).getD 0
  let delta : ℝ :=
    if outcome = "correct" then p.standing_gain.coefficient * Real.log (1 + q)
    else if outcome = "incorrect" then
      -(p.penalty.coefficient) * Real.log (1 + q) * p.penalty.amplifier
    else 0
  setA standings agent (max p.bounds.min (min (current + delta) p.bounds.max))

/-- `_handle_truthstate_emitted`. -/
noncomputable def handleTruthstateEmitted (p : FlowPolicy) (st : ReducerState) (s : Signal) :
    ReducerState :=
  let outcome := s.payload.outcome.getD "unknown"
  let q : ℝ := ((s.payload.quality_score.getD 50 : ℚ) : ℝ)
  let standings := s.payload.contributors.foldl (applyContributor p outcome q) st.standings
  let standings :=
    match s.payload.policy_agent_id with
    | none => standings
    | some pid =>
      match lookupA standings pid with
      | none => standings
      | some current =>
        let delta : ℝ :=
          if outcome = "correct" then (1/2) * Real.log (1 + q)
          else if outcome = "incorrect" then -1 * Real.log (1 + q)
          else 0
        setA standings pid (max p.bounds.min (min (current + delta) p.bounds.max))
  { st with standings := standings }

/-- `_handle_penalty`: subtract the amount, clamped below only. -/
noncomputable def handlePenalty (p : FlowPolicy) (st : ReducerState) (s : Signal) :
    ReducerState :=
  let agent := s.object_id
  let amount : ℝ := ((s.payload.amount.getD 10 : ℚ) : ℝ)
  let standings :=
    if lookupA st.standings agent = none then
      setA st.standings agent (p.getInitialStanding "observer")
    else st.standings
  let current := (lookupA standings agent).getD 0
  { st with standings := setA standings agent (max p.bounds.min (current - amount)) }

/-- `_handle_endorsement`: only ensures both agents exist (the edge itself is
read at trust-computation time). -/
noncomputable def handleEndorsement (p : FlowPolicy) (st : ReducerState) (s : Signal) :
    ReducerState :=
  [s.agent_id, s.object_id].foldl
    (fun st agent =>
      if lookupA st.standings agent = none then
        { st with standings := setA st.standings agent (p.getInitialStanding "observer") }
      else st)
    st

/-- `_apply_signal`: dispatch on `signal_type`; other types are ignored. -/
noncomputable def applySignal (p : FlowPolicy) (st : ReducerState) (s : Signal) :
    ReducerState :=
  if s.signal_type = "AGENT_REGISTERED" then handleAgentRegistered p st s
  else if s.signal_type = "POLICY_REGISTERED" then handlePolicyRegistered p st s
  else if s.signal_type = "TRUTHSTATE_EMITTED" then handleTruthstateEmitted p st s
  else if s.signal_type = "PENALTY_APPLIED" then handlePenalty p st s
  else if s.signal_type = "ENDORSEMENT" then handleEndorsement p st s
  else st

/-- The sort key of `FlowReducer.reduce`: `lambda s: s.time` — the time
alone, NOT `(time, signal_id)`. -/
def sigTimeLt (a b : Signal) : Bool := decide (a.time < b.time)

/-- `FlowReducer.reduce`: fold over `sorted(signals, key=lambda s: s.time)` —
sorted by `time` ONLY; CPython's sort is stable, so signals with equal time
are applied in input-list order. -/
noncomputable def reduce (p : FlowPolicy) (signals : List Signal) : ReducerState :=
  (sortBy sigTimeLt signals).foldl (applySignal p) {}

/-! ## C3: reducer ordering -/

theorem insertSorted_perm (lt : α → α → Bool) (x : α) (l : List α) :
    (insertSorted lt x l).Perm (x :: l) := by
  induction l with
  | nil => exact List.Perm.refl _
  | cons y ys ih =>
      simp only [insertSorted]
      split
      · exact (ih.cons y).trans (List.Perm.swap x y ys)
      · exact List.Perm.refl _

theorem sortBy_perm (lt : α → α → Bool) (l : List α) : (sortBy lt l).Perm l := by
  induction l with
  | nil => exact List.Perm.refl _
  | cons x xs ih => exact (insertSorted_perm lt x (sortBy lt xs)).trans (ih.cons x)

/-- The sorted-by-time invariant. -/
def timeLE (a b : Signal) : Prop := a.time ≤ b.time

theorem insertSorted_pairwise (x : Signal) (l : List Signal)
    (h : l.Pairwise timeLE) : (insertSorted sigTimeLt x l).Pairwise timeLE := by
  induction l with
  | nil => simp [insertSorted, List.pairwise_singleton]
  | cons y ys ih =>
      rcases List.pairwise_cons.mp h with ⟨hy, hys⟩
      simp only [insertSorted]
      by_cases hlt : sigTimeLt y x
      · rw [if_pos hlt]
        refine List.pairwise_cons.mpr ⟨?_, ih hys⟩
        intro z hz
        rcases List.mem_cons.mp ((insertSorted_perm sigTimeLt x ys).mem_iff.mp hz) with rfl | hz'
        · exact le_of_lt (of_decide_eq_true hlt)
        · exact hy z hz'
      · rw [if_neg hlt]
        have hxy : x.time ≤ y.time := le_of_not_lt (of_decide_eq_false (eq_false_of_ne_true hlt))
        refine List.pairwise_cons.mpr ⟨?_, h⟩
        intro z hz
        rcases List.mem_cons.mp hz with rfl | hz'
        · exact hxy
        · exact le_trans hxy (hy z hz')

theorem sortBy_pairwise (l : List Signal) : (sortBy sigTimeLt l).Pairwise timeLE := by
  induction l with
  | nil => exact List.Pairwise.nil
  | cons x xs ih => exact insertSorted_pairwise x (sortBy sigTimeLt xs) ih

/-- Two sorted permutations of each other whose members have pairwise
distinct times are equal. -/
theorem sorted_perm_eq (l₁ l₂ : List Signal) (hp : l₁.Perm l₂)
    (h₁ : l₁.Pairwise timeLE) (h₂ : l₂.Pairwise timeLE)
    (hinj : ∀ a ∈ l₁, ∀ b ∈ l₁, a.time = b.time → a = b) : l₁ = l₂ := by
  induction l₁ generalizing l₂ with
  | nil => exact (hp.nil_eq).symm ▸ rfl
  | cons a t₁ ih =>
      cases l₂ with
      | nil => exact absurd hp.symm.nil_eq (by simp)
      | cons b t₂ =>
          rcases List.pairwise_cons.mp h₁ with ⟨ha, ht₁⟩
          rcases List.pairwise_cons.mp h₂ with ⟨hb, ht₂⟩
          have hab : a = b := by
            have hamem : a ∈ b :: t₂ := hp.mem_iff.mp (List.mem_cons_self _ _)
            have hbmem : b ∈ a :: t₁ := hp.symm.mem_iff.mp (List.mem_cons_self _ _)
            have h1 : b.time ≤ a.time := by
              rcases List.mem_cons.mp hamem with rfl | h'
              · exact le_refl _
              · exact hb a h'
            have h2 : a.time ≤ b.time := by
              rcases List.mem_cons.mp hbmem with he | h'
              · exact le_of_eq (congrArg Signal.time he.symm)
              · exact ha b h'
            exact hinj a (List.mem_cons_self _ _) b hbmem (le_antisymm h2 h1)
          subst hab
          have htp : t₁.Perm t₂ := hp.cons_inv
          have ht : t₁ = t₂ := by
            refine ih t₂ htp ht₁ ht₂ ?_
            intro x hx y hy hxy
            exact hinj x (List.mem_cons_of_mem _ hx) y (List.mem_cons_of_mem _ hy) hxy
          rw [ht]

/-- C3 (amended): `FlowReducer.reduce` sorts signals by `time` alone (the
sort is stable, ties keep input order), so permutation invariance holds for
signal lists in which distinct signals never share a timestamp: replaying
any permutation of such a list yields identical standings and roles. -/
theorem C3_reduce_perm_invariant_distinct_times (p : FlowPolicy) (l₁ l₂ : List Signal)
    (hperm : l₁.Perm l₂)
    (hdist : ∀ a ∈ l₁, ∀ b ∈ l₁, a.time = b.time → a = b) :
    reduce p l₁ = reduce p l₂ := by
  have h1 : sortBy sigTimeLt l₁ = sortBy sigTimeLt l₂ := by
    refine sorted_perm_eq _ _ ?_ (sortBy_pairwise l₁) (sortBy_pairwise l₂) ?_
    · exact (sortBy_perm _ l₁).trans (hperm.trans (sortBy_perm _ l₂).symm)
    · intro a ha b hb ht
      exact hdist a ((sortBy_perm _ l₁).mem_iff.mp ha) b ((sortBy_perm _ l₁).mem_iff.mp hb) ht
  unfold reduce
  rw [h1]

def sigObs : Signal :=
  { signal_id := "s1", signal_type := "AGENT_REGISTERED", time := 0, agent_id := "sys"
    object_id := "ag", payload := { role := some "observer" } }

def sigExp : Signal :=
  { signal_id := "s2", signal_type := "AGENT_REGISTERED", time := 0, agent_id := "sys"
    object_id := "ag", payload := { role := some "expert" } }

/-- C3 (counterexample): two distinct `AGENT_REGISTERED` signals for the same
agent with EQUAL time but different roles.  Sorting by `time` alone is
stable, so each input order is preserved and first-registration wins:
`[sigObs, sigExp]` yields standing 200 (observer) while the permuted
`[sigExp, sigObs]` yields 350 (expert) — `reduce` is not permutation
invariant and does not order ties by `signal_id` (which would pick `"s1"`
first in both cases). -/
theorem C3_counterexample :
    sigObs.time = sigExp.time ∧ sigObs ≠ sigExp ∧
    ([sigObs, sigExp] : List Signal).Perm [sigExp, sigObs] ∧
    lookupA (reduce defaultFlowPolicy [sigObs, sigExp]).standings "ag" = some 200 ∧
    lookupA (reduce defaultFlowPolicy [sigExp, sigObs]).standings "ag" = some 350 ∧
    reduce defaultFlowPolicy [sigObs, sigExp] ≠ reduce defaultFlowPolicy [sigExp, sigObs] := by
  have e1 : lookupA (reduce defaultFlowPolicy [sigObs, sigExp]).standings "ag" = some 200 := by
    simp [reduce, sortBy, insertSorted, sigTimeLt, sigObs, sigExp, applySignal,
      handleAgentRegistered, setA, lookupA, defaultFlowPolicy, FlowPolicy.getInitialStanding,
      List.find?]
  have e2 : lookupA (reduce defaultFlowPolicy [sigExp, sigObs]).standings "ag" = some 350 := by
    simp [reduce, sortBy, insertSorted, sigTimeLt, sigObs, sigExp, applySignal,
      handleAgentRegistered, setA, lookupA, defaultFlowPolicy, FlowPolicy.getInitialStanding,
      List.find?]
  refine ⟨rfl, by decide, by decide, e1, e2, ?_⟩
  intro h
  rw [h, e2] at e1
  have h35 : (350 : ℝ) = 200 := Option.some.inj e1
  norm_num at h35

/-- Witness for C3 (amended) at concrete distinct-time signals. -/
theorem C3_reduce_perm_invariant_witness :
    ([{ sigObs with time := 5 }, { sigExp with time := 7 }] : List Signal).Perm
      [{ sigExp with time := 7 }, { sigObs with time := 5 }] ∧
    reduce defaultFlowPolicy [{ sigObs with time := 5 }, { sigExp with time := 7 }] =
      reduce defaultFlowPolicy [{ sigExp with time := 7 }, { sigObs with time := 5 }] :=
  ⟨by decide,
   C3_reduce_perm_invariant_distinct_times defaultFlowPolicy _ _ (by decide) (by decide)⟩

/-! ## Trust computation (kaori_flow/trust.py) -/

/-- `TrustContext` (Rule 4: trust is local). -/
structure TrustContext where
  claimtype_id : Option String := none
  claimtype_standing : ℝ := 500
  claimtype_collaborators : List (String × ℝ) := []
  probe_id : Option String := none
  probe_creator_id : Option String := none
  probe_creator_standing : ℝ := 0
  snapshot_time : Option Micros := none

/-- `_apply_saturation`: logistic `max / (1 + e^{−k(S − S₀)})`. -/
noncomputable def applySaturation (p : FlowPolicy) (standing : ℝ) : ℝ :=
  p.saturation.max_standing /
    (1 + Real.exp (-(p.saturation.steepness) * (standing - p.saturation.midpoint)))

/-- CPython `max(endorsements, key=lambda s: s.time)`: first maximal element
wins on ties. -/
def pyMaxByTime : Signal → List Signal → Signal
  | best, [] => best
  | best, s :: rest => pyMaxByTime (if best.time < s.time then s else best) rest

/-- `_compute_vouch_edge_weight`.  The parameter `now` models the
`datetime.utcnow()` READ INSIDE the function — the wall clock, which is NOT
an argument of the Python method: the endorsement age, and hence the decayed
edge weight, is computed against the current wall-clock time. -/
noncomputable def computeVouchEdgeWeight (p : FlowPolicy) (voucher vouchee : String)
    (signals : List Signal) (now : Micros) : ℝ :=
  let endorsements := signals.filter fun s =>
    s.signal_type == "ENDORSEMENT" && s.agent_id == voucher && s.object_id == vouchee
  match endorsements with
  | [] => 0
  | e :: rest =>
      let latest := pyMaxByTime e rest
      let ageDays : ℝ := ((now - latest.time : ℤ) : ℝ) / 1000000 / 86400
      max 0 (p.edge_weights.vouch.base_weight *
        Real.exp (-(p.edge_weights.vouch.decay_rate_per_day) * ageDays))

/-- `_compute_network_bonus`: vouches from claimtype collaborators, capped at
`max_bonus_fraction · base`. -/
noncomputable def computeNetworkBonus (p : FlowPolicy) (agent : String) (base : ℝ)
    (ctx : TrustContext) (signals : List Signal) (now : Micros) : ℝ :=
  let cfg := p.network_modifiers.claimtype_collaborator_vouch
  if cfg.enabled = false then 0
  else
    let bonus := (ctx.claimtype_collaborators.map fun c =>
      let ew := computeVouchEdgeWeight p c.1 agent signals now
      if ew > 0 then ew * cfg.per_vouch_fraction * base else 0).sum
    min bonus (cfg.max_bonus_fraction * base)

/-- `_compute_probe_bonus`: bonus from a high-standing probe creator who is
not the observer. -/
noncomputable def computeProbeBonus (p : FlowPolicy) (agent : String) (base : ℝ)
    (ctx : TrustContext) : ℝ :=
  let cfg := p.network_modifiers.probe_creator_bonus
  if cfg.enabled = false then 0
  else
    match ctx.probe_creator_id with
    | none => 0
    | some cid =>
        if cid = agent then 0
        else if ctx.probe_creator_standing < cfg.min_creator_standing then 0
        else cfg.bonus_fraction * base

/-- `_compute_self_dealing_factor`. -/
noncomputable def selfDealingFactor (p : FlowPolicy) (agent : String)
    (ctx : TrustContext) : ℝ :=
  let cfg := p.network_modifiers.self_dealing
  if cfg.enabled = false then 1
  else if ctx.probe_creator_id = some agent then cfg.discount_factor
  else 1

/-- `_apply_phase_transition` (Rule 6): dormant scaling below the dormant
threshold, 0.3× compression of the excess above the dominant threshold. -/
noncomputable def applyPhaseTransition (p : FlowPolicy) (eff : ℝ) : ℝ :=
  let maxS := p.saturation.max_standing
  let cfg := p.phase_transitions
  if eff / maxS < cfg.dormant_threshold / maxS then eff * cfg.dormant_weight_multiplier
  else if eff / maxS > cfg.dominant_threshold / maxS then
    cfg.dominant_threshold + (eff - cfg.dominant_threshold) * (3/10)
  else eff

/-- `TrustComputer.compute_effective_trust`: saturation, network bonus, probe
bonus, self-dealing discount, phase transition, clamp to `[0, maxS]`.  `now`
models the wall-clock read of `_compute_vouch_edge_weight`. -/
noncomputable def computeEffectiveTrust (p : FlowPolicy) (agent : String)
    (baseStanding : ℝ) (ctx : TrustContext) (signals : List Signal) (now : Micros) : ℝ :=
  let base := applySaturation p baseStanding
  let nb := computeNetworkBonus p agent base ctx signals now
  let pb := computeProbeBonus p agent base ctx
  let sdf := selfDealingFactor p agent ctx
  let eff := (base + nb + pb) * sdf
  let eff2 := applyPhaseTransition p eff
  max 0 (min eff2 p.saturation.max_standing)

/-! ## C4: wall-clock dependence of effective trust -/

def endorseSig : Signal :=
  { signal_id := "e1", signal_type := "ENDORSEMENT", time := 0, agent_id := "c"
    object_id := "a" }

def ctxC4 : TrustContext := { claimtype_collaborators := [("c", 600)] }

theorem applySaturation_default_mid : applySaturation defaultFlowPolicy 500 = 500 := by
  simp only [applySaturation, defaultFlowPolicy]
  norm_num [Real.exp_zero]

theorem vouchWeight_now0 :
    computeVouchEdgeWeight defaultFlowPolicy "c" "a" [endorseSig] 0 = 1 := by
  simp only [computeVouchEdgeWeight, endorseSig, List.filter, pyMaxByTime]
  norm_num [defaultFlowPolicy, pyMaxByTime, Real.exp_zero]

theorem vouchWeight_day1 :
    computeVouchEdgeWeight defaultFlowPolicy "c" "a" [endorseSig] 86400000000 =
      Real.exp (-(1/100)) := by
  simp only [computeVouchEdgeWeight, endorseSig, List.filter, pyMaxByTime]
  norm_num [defaultFlowPolicy, pyMaxByTime]
  exact (Real.exp_pos _).le

theorem networkBonus_now0 :
    computeNetworkBonus defaultFlowPolicy "a" 500 ctxC4 [endorseSig] 0 = 25 := by
  simp only [computeNetworkBonus, ctxC4, List.map, List.sum_cons, List.sum_nil,
    vouchWeight_now0]
  norm_num [defaultFlowPolicy]

theorem networkBonus_day1 :
    computeNetworkBonus defaultFlowPolicy "a" 500 ctxC4 [endorseSig] 86400000000 =
      25 * Real.exp (-(1/100)) := by
  have hpos : (0 : ℝ) < Real.exp (-(1/100)) := Real.exp_pos _
  have hlt1 : Real.exp (-(1/100)) < 1 := Real.exp_lt_one_iff.mpr (by norm_num)
  simp only [computeNetworkBonus, ctxC4, List.map, List.sum_cons, List.sum_nil,
    vouchWeight_day1]
  norm_num [defaultFlowPolicy, hpos]
  rw [min_eq_left (by nlinarith)]
  ring

theorem effectiveTrust_ctxC4_now (now : Micros) (w : ℝ)
    (hw : computeNetworkBonus defaultFlowPolicy "a" 500 ctxC4 [endorseSig] now = w)
    (h0 : 0 < w) (h25 : w ≤ 25) :
    computeEffectiveTrust defaultFlowPolicy "a" 500 ctxC4 [endorseSig] now = 500 + w := by
  simp only [computeEffectiveTrust, applySaturation_default_mid, hw]
  have hpb : computeProbeBonus defaultFlowPolicy "a" 500 ctxC4 = 0 := by
    simp [computeProbeBonus, ctxC4, defaultFlowPolicy]
  have hsdf : selfDealingFactor defaultFlowPolicy "a" ctxC4 = 1 := by
    simp [selfDealingFactor, ctxC4, defaultFlowPolicy]
  rw [hpb, hsdf]
  have heff : (500 + w + 0) * 1 = 500 + w := by ring
  rw [heff]
  have hphase : applyPhaseTransition defaultFlowPolicy (500 + w) = 500 + w := by
    simp only [applyPhaseTransition, defaultFlowPolicy]
    have hc1 : ¬ ((500 + w) / 1000 < (300 : ℝ) / 1000) := by
      rw [div_lt_div_iff (by norm_num : (0:ℝ) < 1000) (by norm_num : (0:ℝ) < 1000)]
      nlinarith
    have hc2 : ¬ ((500 + w) / 1000 > (700 : ℝ) / 1000) := by
      rw [gt_iff_lt, div_lt_div_iff (by norm_num : (0:ℝ) < 1000) (by norm_num : (0:ℝ) < 1000)]
      nlinarith
    rw [if_neg hc1, if_neg hc2]
  rw [hphase]
  have hle : (500 : ℝ) + w ≤ defaultFlowPolicy.saturation.max_standing := by
    simp only [defaultFlowPolicy]
    nlinarith
  have hge : (0 : ℝ) ≤ 500 + w := by nlinarith
  rw [min_eq_left hle, max_eq_right hge]

/-- C4: the claim says `compute_effective_trust` is a deterministic function
of its explicit arguments only, with no wall-clock dependence.  But
`_compute_vouch_edge_weight` computes the endorsement age from
`datetime.utcnow()` (modelled by the extra `now` parameter): with one
endorsement from a claimtype collaborator under the default policy, the same
explicit arguments give different effective trust when the wall clock reads
the endorsement's time versus one day later. -/
theorem C4_effective_trust_reads_wall_clock :
    computeEffectiveTrust defaultFlowPolicy "a" 500 ctxC4 [endorseSig] 0 ≠
      computeEffectiveTrust defaultFlowPolicy "a" 500 ctxC4 [endorseSig] 86400000000 := by
  have hpos : (0 : ℝ) < Real.exp (-(1/100)) := Real.exp_pos _
  have hlt1 : Real.exp (-(1/100)) < 1 := Real.exp_lt_one_iff.mpr (by norm_num)
  have e0 : computeEffectiveTrust defaultFlowPolicy "a" 500 ctxC4 [endorseSig] 0 = 500 + 25 :=
    effectiveTrust_ctxC4_now 0 25 networkBonus_now0 (by norm_num) (by norm_num)
  have e1 : computeEffectiveTrust defaultFlowPolicy "a" 500 ctxC4 [endorseSig] 86400000000 =
      500 + 25 * Real.exp (-(1/100)) :=
    effectiveTrust_ctxC4_now 86400000000 _ networkBonus_day1 (by nlinarith) (by nlinarith)
  rw [e0, e1]
  intro h
  have hexp : Real.exp (-(1/100)) = 1 := by linarith
  rw [hexp] at hlt1
  norm_num at hlt1

/-! ## C7: the self-dealing discount -/

def ctxSelf : TrustContext := { probe_creator_id := some "a", probe_creator_standing := 600 }

def ctxOther : TrustContext := { probe_creator_id := some "b", probe_creator_standing := 600 }

theorem effectiveTrust_ctxSelf :
    computeEffectiveTrust defaultFlowPolicy "a" 500 ctxSelf [] 0 = 25 := by
  have hnb : computeNetworkBonus defaultFlowPolicy "a" 500 ctxSelf [] 0 = 0 := by
    simp only [computeNetworkBonus, ctxSelf, List.map_nil, List.sum_nil]
    norm_num [defaultFlowPolicy, min_def]
  have hpb : computeProbeBonus defaultFlowPolicy "a" 500 ctxSelf = 0 := by
    simp [computeProbeBonus, ctxSelf, defaultFlowPolicy]
  have hsdf : selfDealingFactor defaultFlowPolicy "a" ctxSelf = 1/2 := by
    simp [selfDealingFactor, ctxSelf, defaultFlowPolicy]
  simp only [computeEffectiveTrust, applySaturation_default_mid]
  rw [hnb, hpb, hsdf]
  norm_num [applyPhaseTransition, defaultFlowPolicy, min_def, max_def]

theorem effectiveTrust_ctxOther :
    computeEffectiveTrust defaultFlowPolicy "a" 500 ctxOther [] 0 = 525 := by
  have hnb : computeNetworkBonus defaultFlowPolicy "a" 500 ctxOther [] 0 = 0 := by
    simp only [computeNetworkBonus, ctxOther, List.map_nil, List.sum_nil]
    norm_num [defaultFlowPolicy, min_def]
  have hpb : computeProbeBonus defaultFlowPolicy "a" 500 ctxOther = 25 := by
    simp only [computeProbeBonus, ctxOther]
    rw [if_neg (by norm_num [defaultFlowPolicy]), if_neg (by decide), if_neg (by norm_num [defaultFlowPolicy])]
    norm_num [defaultFlowPolicy]
  have hsdf : selfDealingFactor defaultFlowPolicy "a" ctxOther = 1 := by
    simp [selfDealingFactor, ctxOther, defaultFlowPolicy]
  simp only [computeEffectiveTrust, applySaturation_default_mid]
  rw [hnb, hpb, hsdf]
  norm_num [applyPhaseTransition, defaultFlowPolicy, min_def, max_def]

/-- C7 (counterexample): under the default policy at standing 500 with no
signals, a probe creator of standing 600, and a discount factor of 0.5, the
self-dealing effective trust is 25 — the discounted 250 falls into the
dormant phase and is scaled by 0.1 — while the different-creator effective
trust is 525 (it receives the probe-creator bonus).  `25` differs from
`0.5 × 525 = 262.5` by far more than the claimed 10⁻⁶ tolerance. -/
theorem C7_counterexample :
    computeEffectiveTrust defaultFlowPolicy "a" 500 ctxSelf [] 0 = 25 ∧
    computeEffectiveTrust defaultFlowPolicy "a" 500 ctxOther [] 0 = 525 ∧
    (1 : ℝ)/1000000 ≤
      |computeEffectiveTrust defaultFlowPolicy "a" 500 ctxSelf [] 0 -
        defaultFlowPolicy.network_modifiers.self_dealing.discount_factor *
          computeEffectiveTrust defaultFlowPolicy "a" 500 ctxOther [] 0| := by
  refine ⟨effectiveTrust_ctxSelf, effectiveTrust_ctxOther, ?_⟩
  rw [effectiveTrust_ctxSelf, effectiveTrust_ctxOther]
  rw [show defaultFlowPolicy.network_modifiers.self_dealing.discount_factor = 1/2 from rfl]
  rw [abs_of_nonpos (by norm_num)]
  norm_num

/-- C7 (amended): the exact factor-`discount_factor` relation between the
self-dealing and different-creator effective trust holds when (i) the
probe-creator bonus does not fire for the different creator, and (ii) both
the discounted and undiscounted values lie in the identity region of the
phase transition and inside the `[0, max_standing]` clamp.  (The
counterexample shows it fails otherwise.) -/
theorem C7_self_dealing_discount (p : FlowPolicy) (agent other : String) (standing : ℝ)
    (ctx : TrustContext) (signals : List Signal) (now : Micros) (x : ℝ)
    (hself : ctx.probe_creator_id = some agent)
    (hne : other ≠ agent)
    (hen : p.network_modifiers.self_dealing.enabled = true)
    (hx : x = applySaturation p standing +
      computeNetworkBonus p agent (applySaturation p standing) ctx signals now)
    (hpb : computeProbeBonus p agent (applySaturation p standing)
      { ctx with probe_creator_id := some other } = 0)
    (hphS : applyPhaseTransition p (x * p.network_modifiers.self_dealing.discount_factor) =
      x * p.network_modifiers.self_dealing.discount_factor)
    (hphO : applyPhaseTransition p x = x)
    (hclS1 : x * p.network_modifiers.self_dealing.discount_factor ≤ p.saturation.max_standing)
    (hclS2 : 0 ≤ x * p.network_modifiers.self_dealing.discount_factor)
    (hclO1 : x ≤ p.saturation.max_standing)
    (hclO2 : 0 ≤ x) :
    computeEffectiveTrust p agent standing ctx signals now =
      p.network_modifiers.self_dealing.discount_factor *
        computeEffectiveTrust p agent standing { ctx with probe_creator_id := some other }
          signals now := by
  have hpbS : computeProbeBonus p agent (applySaturation p standing) ctx = 0 := by
    simp only [computeProbeBonus, hself]
    by_cases he : p.network_modifiers.probe_creator_bonus.enabled = false
    · rw [if_pos he]
    · rw [if_neg he]
      simp
  have hsdfS : selfDealingFactor p agent ctx =
      p.network_modifiers.self_dealing.discount_factor := by
    simp [selfDealingFactor, hself, hen]
  have hsdfO : selfDealingFactor p agent { ctx with probe_creator_id := some other } = 1 := by
    simp [selfDealingFactor, hen, hne]
  have hnbO : computeNetworkBonus p agent (applySaturation p standing)
      { ctx with probe_creator_id := some other } signals now =
      computeNetworkBonus p agent (applySaturation p standing) ctx signals now := rfl
  simp only [computeEffectiveTrust, hpbS, hpb, hsdfS, hsdfO, hnbO, add_zero, mul_one]
  rw [← hx, hphS, hphO]
  rw [min_eq_left hclS1, min_eq_left hclO1, max_eq_right hclS2, max_eq_right hclO2]
  exact mul_comm x _

noncomputable def policyW : FlowPolicy :=
  { network_modifiers := { self_dealing := { discount_factor := 4/5 } } }

def ctxW : TrustContext := { probe_creator_id := some "a", probe_creator_standing := 100 }

theorem applySaturation_policyW : applySaturation policyW 500 = 500 := by
  simp only [applySaturation, policyW]
  norm_num [Real.exp_zero]

/-- Witness for C7 (amended): discount factor 0.8, standing 500, no probe
bonus (creator standing 100 < 500), both 400 and 500 in the active phase. -/
theorem C7_self_dealing_discount_witness :
    ctxW.probe_creator_id = some "a" ∧ ("b" : String) ≠ "a" ∧
    policyW.network_modifiers.self_dealing.enabled = true ∧
    computeEffectiveTrust policyW "a" 500 ctxW [] 0 =
      policyW.network_modifiers.self_dealing.discount_factor *
        computeEffectiveTrust policyW "a" 500 { ctxW with probe_creator_id := some "b" }
          [] 0 := by
  have hnb : computeNetworkBonus policyW "a" 500 ctxW [] 0 = 0 := by
    simp only [computeNetworkBonus, ctxW, List.map_nil, List.sum_nil]
    norm_num [policyW, min_def]
  refine ⟨rfl, by decide, rfl, ?_⟩
  refine C7_self_dealing_discount policyW "a" "b" 500 ctxW [] 0 500 rfl (by decide) rfl
    ?_ ?_ ?_ ?_ ?_ ?_ ?_ ?_
  · rw [applySaturation_policyW, hnb]; norm_num
  · simp only [computeProbeBonus, applySaturation_policyW]
    norm_num [policyW, ctxW]
  · norm_num [applyPhaseTransition, policyW]
  · norm_num [applyPhaseTransition, policyW]
  · norm_num [policyW]
  · norm_num [policyW]
  · norm_num [policyW]
  · norm_num

end Kaori
